import Mathlib

/-!
Shallow embedding of `streamlit_parameters/parameters.py` (stonier/streamlit_parameters).

The Python module keeps a registry of `Parameter` records in the streamlit
session state, initialises each parameter from the URL query string (falling
back to a caller-supplied default), and re-serialises the registry back into
the query string.  Python values flowing through the registry are modelled by
the `Value` universe below; the session state (registry mapping, the
`_parameters_set_all` flag) and the query-string store are modelled by the
explicit `RegState` record.  Python exceptions (`KeyError` from a missing
query field, `IndexError` from `raw_str[0]` / `raw_str[-1]` on an empty
string, `ValueError` from failed conversions, `AssertionError` from the
range-length assert) are modelled with `Except PyErr`.

String primitives (`str.strip`, `str.split(",")`, `str.lower`, decimal
printing/parsing) are implemented here over `List Char`, faithful to the
Python semantics on the ASCII strings the module manipulates.
-/

/-- The Python exceptions the module can raise or catch. -/
inductive PyErr where
  | keyError
  | indexError
  | valueError
  | assertError
deriving DecidableEq, Repr

/-! ### Character and decimal-string primitives -/

/-- The single-quote character (written via its code point). -/
def squote : Char := Char.ofNat 39

/-- ASCII whitespace recognised by Python `str.strip()` (space, tab, LF, CR,
vertical tab, form feed). -/
def pyIsSpace (c : Char) : Bool :=
  c = ' ' || c = Char.ofNat 9 || c = Char.ofNat 10 || c = Char.ofNat 13 ||
  c = Char.ofNat 11 || c = Char.ofNat 12

/-- ASCII decimal digit test. -/
def isDigitChar (c : Char) : Bool := 48 ≤ c.toNat && c.toNat ≤ 57

/-- The decimal digit character for `n < 10`. -/
def digitChar (n : Nat) : Char :=
  match n with
  | 0 => '0' | 1 => '1' | 2 => '2' | 3 => '3' | 4 => '4'
  | 5 => '5' | 6 => '6' | 7 => '7' | 8 => '8' | _ => '9'

/-- Numeric value of a decimal digit character. -/
def digitVal (c : Char) : Nat := c.toNat - 48

/-- Value of a most-significant-first decimal digit list. -/
def digitsToNat (cs : List Char) : Nat :=
  cs.foldl (fun a c => 10 * a + digitVal c) 0

/-- Decimal digits of `n`, most significant first (fuel-based so it reduces). -/
def natDigitsAux : Nat → Nat → List Char
  | 0, _ => []
  | fuel + 1, n =>
    if n < 10 then [digitChar n]
    else natDigitsAux fuel (n / 10) ++ [digitChar (n % 10)]

/-- Decimal digits of `n`, most significant first. -/
def natDigits (n : Nat) : List Char := natDigitsAux (n + 1) n

/-- Python `str(n)` for a non-negative integer. -/
def natToStr (n : Nat) : String := String.mk (natDigits n)

/-- Python `str(i)` for an integer. -/
def intToStr (i : Int) : String :=
  if i < 0 then String.mk ('-' :: natDigits i.natAbs) else natToStr i.natAbs

/-- Python `str.strip()`: drop ASCII whitespace at both ends. -/
def stripWS (cs : List Char) : List Char :=
  ((cs.dropWhile pyIsSpace).reverse.dropWhile pyIsSpace).reverse

/-- Python `str.split(sep)` for a one-character separator (on a char list). -/
def splitOnChar (sep : Char) : List Char → List (List Char)
  | [] => [[]]
  | c :: cs =>
    if c = sep then [] :: splitOnChar sep cs
    else
      match splitOnChar sep cs with
      | [] => [[c]]
      | g :: gs => (c :: g) :: gs

/-- Python `str.lower()` restricted to ASCII letters. -/
def lowerChar (c : Char) : Char :=
  if 65 ≤ c.toNat ∧ c.toNat ≤ 90 then Char.ofNat (c.toNat + 32) else c

/-- Python `str.lower()` on a string. -/
def pyLower (s : String) : String := String.mk (s.data.map lowerChar)

/-- Python `int(s)`: strip whitespace, optional sign, then a non-empty run of
decimal digits.  (Python also allows underscores between digits; those never
occur in this module's round trips and are not modelled.) -/
def pyIntParse (s : String) : Option Int :=
  match stripWS s.data with
  | [] => none
  | c :: rest =>
    if c = '-' then
      if rest ≠ [] ∧ rest.all isDigitChar then some (-(digitsToNat rest : Int)) else none
    else if c = '+' then
      if rest ≠ [] ∧ rest.all isDigitChar then some ((digitsToNat rest : Int)) else none
    else
      if (c :: rest).all isDigitChar then some ((digitsToNat (c :: rest) : Int)) else none

/-- Value of an optional digit run used as a fractional part. -/
def fracVal (cs : List Char) : Rat := (digitsToNat cs : Rat) / ((10 : Rat) ^ cs.length)

/-- Python `float(s)` restricted to plain decimal literals
(`[+-]? digits [. digits]`, at least one digit overall): the module's float
parameters only meet such literals.  Exponents, `inf`/`nan` are not modelled. -/
def pyFloatParse (s : String) : Option Rat :=
  let signed : List Char → Option Rat := fun cs =>
    match splitOnChar '.' cs with
    | [a] => if a ≠ [] ∧ a.all isDigitChar then some ((digitsToNat a : Rat)) else none
    | [a, b] =>
      if (a ≠ [] ∨ b ≠ []) ∧ a.all isDigitChar ∧ b.all isDigitChar then
        some ((digitsToNat a : Rat) + fracVal b)
      else none
    | _ => none
  match stripWS s.data with
  | [] => none
  | c :: rest =>
    if c = '-' then (signed rest).map (fun q => -q)
    else if c = '+' then signed rest
    else signed (c :: rest)

/-- Left-pad a decimal rendering with zeros to width `w`. -/
def padZeros (w : Nat) (n : Nat) : String :=
  String.mk (List.replicate (w - (natDigits n).length) '0' ++ natDigits n)

/-- Modelled from the library `dateutil.parser.parse(s).date()`, restricted to
the canonical ISO `YYYY-MM-DD` form this module documents and re-serialises;
a string outside that form is a parse failure (dateutil's `ParserError` is a
`ValueError`).  A date is a `(year, month, day)` triple. -/
def pyDateParse (s : String) : Option (Nat × Nat × Nat) :=
  match (splitOnChar '-' (stripWS s.data)).map String.mk with
  | [y, m, d] =>
    match y.toNat?, m.toNat?, d.toNat? with
    | some yn, some mn, some dn =>
      if 1 ≤ mn ∧ mn ≤ 12 ∧ 1 ≤ dn ∧ dn ≤ 31 then some (yn, mn, dn) else none
    | _, _, _ => none
  | _ => none

/-! ### The universe of Python values held by parameters -/

/-- Python values a `Parameter` can hold: ints, floats (as rationals), strings,
booleans, `datetime.date` values, 2-tuples and lists. -/
inductive Value where
  | vint : Int → Value
  | vfloat : Rat → Value
  | vstr : String → Value
  | vbool : Bool → Value
  | vdate : Nat → Nat → Nat → Value
  | vpair : Value → Value → Value
  | vlist : List Value → Value

mutual

/-- Python `repr` of a value.  String repr is modelled for quote-free,
backslash-free strings (single quotes around the text); float repr is a
stand-in (no claim evaluates it); date repr follows `datetime.date.__repr__`. -/
def pyRepr : Value → String
  | .vint n => intToStr n
  | .vfloat q => intToStr q.num ++ "/" ++ natToStr q.den
  | .vstr s => String.mk (squote :: s.data ++ [squote])
  | .vbool b => if b then "True" else "False"
  | .vdate y m d =>
    "datetime.date(" ++ natToStr y ++ ", " ++ natToStr m ++ ", " ++ natToStr d ++ ")"
  | .vpair a b => "(" ++ pyRepr a ++ ", " ++ pyRepr b ++ ")"
  | .vlist vs => "[" ++ pyReprList vs ++ "]"

/-- `", ".join(repr(v) for v in vs)`, as in Python's list `repr`. -/
def pyReprList : List Value → String
  | [] => ""
  | [v] => pyRepr v
  | v :: vs => pyRepr v ++ ", " ++ pyReprList vs

end


/-- Python `str` of a value: differs from `repr` on strings (verbatim) and
dates (ISO `YYYY-MM-DD`, as `datetime.date.__str__`); containers render their
elements with `repr`, as in Python. -/
def pyStr : Value → String
  | .vstr s => s
  | .vdate y m d => padZeros 4 y ++ "-" ++ padZeros 2 m ++ "-" ++ padZeros 2 d
  | v => pyRepr v

/-- Association-list lookup by key, modelling Python dict lookup (first
match; a Python dict cannot hold duplicate keys). -/
def alookup {α : Type} (k : String) : List (String × α) → Option α
  | [] => none
  | (k0, v) :: rest => if k0 = k then some v else alookup k rest

/-! ### The Parameter record (`class Parameter`) -/

/-- `Parameter` from `parameters.py`: key, registered default, current value,
touched flag and the value-to-string serializer (`to_str`). -/
structure Parameter where
  key : String
  default : Value
  value : Value
  touched : Bool
  to_str : Value → String

/-- `Parameter.__init__`: `value` starts out equal to `default`. -/
def Parameter.init (key : String) (default : Value) (touched : Bool)
    (to_str : Value → String) : Parameter :=
  { key := key, default := default, value := default, touched := touched, to_str := to_str }

/-- `Parameter.update`: override the current value and flag it as touched. -/
def Parameter.update (p : Parameter) (new_value : Value) : Parameter :=
  { p with value := new_value, touched := true }

/-- `_convert_list_or_tuple(values)`:
`"(" + ",".join(str(value) for value in values) + ")"`.  It is only ever
applied to 2-tuples (and would iterate a list the same way); other values
would raise `TypeError` in Python and are mapped to a junk rendering here
(never reached by the module). -/
def _convert_list_or_tuple (v : Value) : String :=
  match v with
  | .vpair a b => "(" ++ pyStr a ++ "," ++ pyStr b ++ ")"
  | .vlist vs => "(" ++ String.intercalate "," (vs.map pyStr) ++ ")"
  | other => "(" ++ pyStr other ++ ")"

/-! ### The registry state

`streamlit.session_state._parameters` is a Python dict from key to
`Parameter` (insertion-ordered), `_parameters_set_all` the export-mode flag,
and the URL query string store is what
`streamlit.experimental_get_query_params` /
`streamlit.experimental_set_query_params` read and write.  Each query key
maps to a list of values of which `_fetch_url_field` takes the first; the
store is modelled as an association list of key and first value. -/

structure RegState where
  parameters : List (String × Parameter)
  set_all : Bool
  query : List (String × String)

/-- Python dict assignment `d[k] = p`: overwrite in place, else append. -/
def dictSet : List (String × Parameter) → String → Parameter → List (String × Parameter)
  | [], k, p => [(k, p)]
  | (k0, p0) :: rest, k, p =>
    if k0 = k then (k, p) :: rest else (k0, p0) :: dictSet rest k p

/-- `Parameters._already_registered`: `key in session_state._parameters`. -/
def _already_registered (st : RegState) (key : String) : Bool :=
  (alookup key st.parameters).isSome

/-- `Parameters._fetch_url_field`: look the key up in the query-string store;
raises `KeyError` if the field does not exist. -/
def _fetch_url_field (q : List (String × String)) (key : String) : Except PyErr String :=
  match alookup key q with
  | some s => .ok s
  | none => .error .keyError

/-- The bracket-stripping prefix of `_read_list_or_tuple`:
`raw_str[0]` / `raw_str[-1]` indexing raises `IndexError` on an empty
string. -/
def stripListBrackets (cs : List Char) : Except PyErr (List Char) :=
  match cs with
  | [] => .error .indexError
  | c :: rest =>
    let cs1 := if c = '(' ∨ c = '[' then rest else c :: rest
    match cs1.getLast? with
    | none => .error .indexError
    | some d => .ok (if d = ')' ∨ d = ']' then cs1.dropLast else cs1)

/-- The per-element cleanup in `_read_list_or_tuple`'s loop: `value.strip()`,
then strip one optional leading and one optional trailing single quote
(`new_value[0]` / `new_value[-1]` raise `IndexError` when the stripped
element is empty). -/
def cleanElement (cs : List Char) : Except PyErr String :=
  match stripWS cs with
  | [] => .error .indexError
  | c :: rest =>
    let t1 := if c = squote then rest else c :: rest
    match t1.getLast? with
    | none => .error .indexError
    | some d => .ok (String.mk (if d = squote then t1.dropLast else t1))

/-- The loop of `_read_list_or_tuple` over the split elements (first failure
aborts, as the Python exception would). -/
def cleanAll : List (List Char) → Except PyErr (List String)
  | [] => .ok []
  | g :: gs => do
    let c ← cleanElement g
    let cs ← cleanAll gs
    pure (c :: cs)

/-- `Parameters._read_list_or_tuple(key)` with the default `","` separator. -/
def _read_list_or_tuple (q : List (String × String)) (key : String) :
    Except PyErr (List String) := do
  let raw ← _fetch_url_field q key
  let core ← stripListBrackets raw.data
  if core = [] then pure []
  else cleanAll (splitOnChar ',' core)

/-- `register_int_parameter`: the `try` block covers the fetch and the `int()`
conversion but only `KeyError` is caught; a `ValueError` from `int()`
propagates (before the dict assignment, so the registry is untouched). -/
def register_int_parameter (st : RegState) (key : String) (default_value : Int) :
    Except PyErr RegState :=
  if _already_registered st key then .ok st
  else do
    let parameter ← match _fetch_url_field st.query key with
      | .ok raw =>
        match pyIntParse raw with
        | some n => pure (Parameter.init key (.vint n) true pyStr)
        | none => throw .valueError
      | .error .keyError => pure (Parameter.init key (.vint default_value) false pyStr)
      | .error e => throw e
    pure { st with parameters := dictSet st.parameters key parameter }

/-- `register_float_parameter` (same shape, `float()` conversion). -/
def register_float_parameter (st : RegState) (key : String) (default_value : Rat) :
    Except PyErr RegState :=
  if _already_registered st key then .ok st
  else do
    let parameter ← match _fetch_url_field st.query key with
      | .ok raw =>
        match pyFloatParse raw with
        | some x => pure (Parameter.init key (.vfloat x) true pyStr)
        | none => throw .valueError
      | .error .keyError => pure (Parameter.init key (.vfloat default_value) false pyStr)
      | .error e => throw e
    pure { st with parameters := dictSet st.parameters key parameter }

/-- `register_string_parameter`: the raw query value is used verbatim. -/
def register_string_parameter (st : RegState) (key : String) (default_value : String) :
    Except PyErr RegState :=
  if _already_registered st key then .ok st
  else do
    let parameter ← match _fetch_url_field st.query key with
      | .ok raw => pure (Parameter.init key (.vstr raw) true pyStr)
      | .error .keyError => pure (Parameter.init key (.vstr default_value) false pyStr)
      | .error e => throw e
    pure { st with parameters := dictSet st.parameters key parameter }

/-- `register_bool_parameter`: the parsed default is the membership test
`s.lower() in ["true", "false", "yes", "no"]` — a `bool` for any raw string,
never an exception. -/
def register_bool_parameter (st : RegState) (key : String) (default_value : Bool) :
    Except PyErr RegState :=
  if _already_registered st key then .ok st
  else do
    let parameter ← match _fetch_url_field st.query key with
      | .ok s =>
        pure (Parameter.init key
          (.vbool (["true", "false", "yes", "no"].contains (pyLower s))) true pyStr)
      | .error .keyError => pure (Parameter.init key (.vbool default_value) false pyStr)
      | .error e => throw e
    pure { st with parameters := dictSet st.parameters key parameter }

/-- `register_date_parameter`: `dateutil.parser.parse(...).date()`; a parse
failure (`ParserError`, a `ValueError`) propagates. -/
def register_date_parameter (st : RegState) (key : String)
    (default_value : Nat × Nat × Nat) : Except PyErr RegState :=
  if _already_registered st key then .ok st
  else do
    let parameter ← match _fetch_url_field st.query key with
      | .ok raw =>
        match pyDateParse raw with
        | some d => pure (Parameter.init key (.vdate d.1 d.2.1 d.2.2) true pyStr)
        | none => throw .valueError
      | .error .keyError =>
        pure (Parameter.init key
          (.vdate default_value.1 default_value.2.1 default_value.2.2) false pyStr)
      | .error e => throw e
    pure { st with parameters := dictSet st.parameters key parameter }

/-- The scalar converter used for each side of a range, as an
`Except`-returning function (`ValueError` on failure). -/
def convertWith (parse : String → Option Value) (s : String) : Except PyErr Value :=
  match parse s with
  | some v => .ok v
  | none => .error .valueError

/-- The list comprehension `[convert_callable(i) for i in ...]` (first failure
aborts). -/
def convertAll (convert : String → Except PyErr Value) :
    List String → Except PyErr (List Value)
  | [] => .ok []
  | s :: ss => do
    let v ← convert s
    let vs ← convertAll convert ss
    pure (v :: vs)

/-- `Parameters._register_range_parameter(key, default_value, convert_callable)`:
read and split the raw value, convert each part, `assert len(parts) == 2`
(an `AssertionError` propagates), and build the parameter with the
`_convert_list_or_tuple` serializer.  Only `KeyError` is caught. -/
def _register_range_parameter (st : RegState) (key : String)
    (default_value : Value × Value) (convert : String → Except PyErr Value) :
    Except PyErr RegState :=
  if _already_registered st key then .ok st
  else do
    let attempt : Except PyErr Parameter := do
      let raws ← _read_list_or_tuple st.query key
      let parts ← convertAll convert raws
      match parts with
      | [a, b] => pure (Parameter.init key (.vpair a b) true _convert_list_or_tuple)
      | _ => throw .assertError
    let parameter ← match attempt with
      | .ok p => pure p
      | .error .keyError =>
        pure (Parameter.init key (.vpair default_value.1 default_value.2) false
          _convert_list_or_tuple)
      | .error e => throw e
    pure { st with parameters := dictSet st.parameters key parameter }

/-- `register_int_range_parameter`. -/
def register_int_range_parameter (st : RegState) (key : String)
    (default_value : Int × Int) : Except PyErr RegState :=
  _register_range_parameter st key (.vint default_value.1, .vint default_value.2)
    (convertWith (fun s => (pyIntParse s).map Value.vint))

/-- `register_float_range_parameter`. -/
def register_float_range_parameter (st : RegState) (key : String)
    (default_value : Rat × Rat) : Except PyErr RegState :=
  _register_range_parameter st key (.vfloat default_value.1, .vfloat default_value.2)
    (convertWith (fun s => (pyFloatParse s).map Value.vfloat))

/-- `register_date_range_parameter`. -/
def register_date_range_parameter (st : RegState) (key : String)
    (default_value : (Nat × Nat × Nat) × (Nat × Nat × Nat)) : Except PyErr RegState :=
  _register_range_parameter st key
    (.vdate default_value.1.1 default_value.1.2.1 default_value.1.2.2,
     .vdate default_value.2.1 default_value.2.2.1 default_value.2.2.2)
    (convertWith (fun s => (pyDateParse s).map (fun d => Value.vdate d.1 d.2.1 d.2.2)))

/-- `register_string_list_parameter`: split elements are kept verbatim; the
parameter keeps the default `str` serializer. -/
def register_string_list_parameter (st : RegState) (key : String)
    (default_value : List String) : Except PyErr RegState :=
  if _already_registered st key then .ok st
  else do
    let parameter ← match _read_list_or_tuple st.query key with
      | .ok values =>
        pure (Parameter.init key (.vlist (values.map Value.vstr)) true pyStr)
      | .error .keyError =>
        pure (Parameter.init key (.vlist (default_value.map Value.vstr)) false pyStr)
      | .error e => throw e
    pure { st with parameters := dictSet st.parameters key parameter }

/-- `distutils.util.strtobool` (modelled from CPython): case-insensitively
`y/yes/t/true/on/1 -> 1`, `n/no/f/false/off/0 -> 0`, anything else raises
`ValueError`.  It returns an `int`, not a `bool`. -/
def strtobool (s : String) : Except PyErr Nat :=
  let v := pyLower s
  if ["y", "yes", "t", "true", "on", "1"].contains v then .ok 1
  else if ["n", "no", "f", "false", "off", "0"].contains v then .ok 0
  else .error .valueError

/-- The list comprehension `[util.strtobool(value) for value in values]`. -/
def strtoboolAll : List String → Except PyErr (List Nat)
  | [] => .ok []
  | s :: ss => do
    let n ← strtobool s
    let ns ← strtoboolAll ss
    pure (n :: ns)

/-- `register_boolean_list_parameter`: elements go through
`util.strtobool`; a `ValueError` propagates; the parameter keeps the default
`str` serializer and stores the ints strtobool produces. -/
def register_boolean_list_parameter (st : RegState) (key : String)
    (default_value : List Bool) : Except PyErr RegState :=
  if _already_registered st key then .ok st
  else do
    let parameter ← match (do
        let values ← _read_list_or_tuple st.query key
        let new_values ← strtoboolAll values
        pure new_values : Except PyErr (List Nat)) with
      | .ok new_values =>
        pure (Parameter.init key (.vlist (new_values.map (fun n => Value.vint n))) true pyStr)
      | .error .keyError =>
        pure (Parameter.init key
          (.vlist (default_value.map Value.vbool)) false pyStr)
      | .error e => throw e
    pure { st with parameters := dictSet st.parameters key parameter }

/-- `update_parameter(key, value)` (raises `KeyError` on an unknown key). -/
def update_parameter (st : RegState) (key : String) (value : Value) :
    Except PyErr RegState :=
  match alookup key st.parameters with
  | some _ =>
    let ps := st.parameters.map (fun kp =>
      if kp.1 = key then (kp.1, kp.2.update value) else kp)
    .ok { st with parameters := ps }
  | none => .error .keyError

/-- `set_url_fields`: build `values = {key: parameter.to_str(parameter.value)}`
over every registered parameter with `is_set_all() or parameter.touched`, and
hand the whole mapping to `streamlit.experimental_set_query_params`, which
replaces the query string (full replace, not a merge). -/
def set_url_fields (st : RegState) : RegState :=
  { st with query :=
      st.parameters.filterMap (fun kp =>
        if st.set_all || kp.2.touched then some (kp.1, kp.2.to_str kp.2.value) else none) }

/-- A caller that catches the exception of a failed registration observes the
session state as it was when the exception was raised; every `register_*`
operation mutates the registry only in its final statement, so on a failure
the state is unchanged. -/
def runRegister (f : RegState → Except PyErr RegState) (st : RegState) : RegState :=
  match f st with
  | .ok st2 => st2
  | .error _ => st

/-! ### Helper lemmas: decimal digits -/

/-- The final dict assignment `session_state._parameters[key] = parameter`. -/
def withParam (st : RegState) (key : String) (p : Parameter) : RegState :=
  { st with parameters := dictSet st.parameters key p }

/-- A one-parameter session state used to witness the no-op claim. -/
def wRegistered : RegState :=
  { parameters := [("k", Parameter.init "k" (.vint 0) false pyStr)],
    set_all := false,
    query := [("k", "99")] }

/-- A fresh session whose query string carries the raw boolean value "false". -/
def wBoolState : RegState :=
  { parameters := [], set_all := false, query := [("flag", "false")] }

/-- A two-parameter session (one touched, one untouched) for the export
witness. -/
def wExportState : RegState :=
  { parameters :=
      [("a", Parameter.init "a" (.vint 1) true pyStr),
       ("b", Parameter.init "b" (.vint 2) false pyStr)],
    set_all := false,
    query := [("stale", "zzz")] }

/-- A fresh session with one query entry `k=7` (and nothing under `j`). -/
def wFresh : RegState := { parameters := [], set_all := false, query := [("k", "7")] }

/-- A fresh session with a non-numeric entry and a three-element range. -/
def wBadQuery : RegState :=
  { parameters := [], set_all := false, query := [("n", "abc"), ("r", "(1,2,3)")] }

/-- A fresh session whose query field holds the one-element boolean list
`(on)`. -/
def wBoolListOn : RegState :=
  { parameters := [], set_all := false, query := [("k", "(on)")] }

/-- A fresh session whose query field holds the one-element boolean list
`(false)`. -/
def wBoolListFalse : RegState :=
  { parameters := [], set_all := false, query := [("k", "(false)")] }

/-- A fresh session whose query field holds the boolean list `(yes, 0)`. -/
def wBoolListYes0 : RegState :=
  { parameters := [], set_all := false, query := [("k", "(yes, 0)")] }

/-- A fresh session whose query field holds the empty raw string. -/
def wEmptyRaw : RegState :=
  { parameters := [], set_all := false, query := [("k", "")] }

/-- A fresh session whose query field holds the bracket-only value. -/
def wEmptyParens : RegState :=
  { parameters := [], set_all := false, query := [("k", "()")] }

/-- The quoted form Python repr gives a plain string. -/
def quoteStr (s : String) : String := String.mk (squote :: s.data ++ [squote])

/-- A session with one registered, touched string-list parameter holding
`Hello` and `world` (as built by registration from defaults then an update,
here given directly). -/
def wListExport : RegState :=
  { parameters :=
      [("words", Parameter.init "words" (.vlist [.vstr "Hello", .vstr "world"]) true pyStr)],
    set_all := false,
    query := [] }

/-- A fresh session whose query holds the serialized integer range and the
serialized string list. -/
def wRoundtrip : RegState :=
  { parameters := [], set_all := false,
    query := [("r", _convert_list_or_tuple (.vpair (.vint 10) (.vint 20))),
      ("l", pyStr (.vlist [.vstr "Hello", .vstr "world"]))] }

theorem digitVal_digitChar (d : Nat) (h : d < 10) : digitVal (digitChar d) = d := by
  interval_cases d <;> decide

theorem isDigitChar_digitChar (d : Nat) (h : d < 10) : isDigitChar (digitChar d) = true := by
  interval_cases d <;> decide

theorem digitsToNat_append (l : List Char) (c : Char) :
    digitsToNat (l ++ [c]) = 10 * digitsToNat l + digitVal c := by
  simp [digitsToNat, List.foldl_append]

theorem natDigitsAux_spec (fuel : Nat) : ∀ n : Nat, n < fuel →
    digitsToNat (natDigitsAux fuel n) = n ∧
    natDigitsAux fuel n ≠ [] ∧
    ∀ c ∈ natDigitsAux fuel n, isDigitChar c = true := by
  induction fuel with
  | zero => intro n h; omega
  | succ fuel ih =>
    intro n h
    by_cases h10 : n < 10
    · simp [natDigitsAux, h10, digitsToNat, digitVal_digitChar n h10,
        isDigitChar_digitChar n h10]
    · have hdiv : n / 10 < fuel := by
        have := Nat.div_lt_self (by omega : 0 < n) (by omega : 1 < 10)
        omega
      obtain ⟨hval, hne, hdig⟩ := ih (n / 10) hdiv
      refine ⟨?_, by simp [natDigitsAux, h10], ?_⟩
      · simp [natDigitsAux, h10, digitsToNat_append, hval,
          digitVal_digitChar (n % 10) (Nat.mod_lt n (by omega))]
        omega
      · intro c hc
        simp [natDigitsAux, h10] at hc
        rcases hc with hc | hc
        · exact hdig c hc
        · subst hc; exact isDigitChar_digitChar _ (Nat.mod_lt n (by omega))

theorem digitsToNat_natDigits (n : Nat) : digitsToNat (natDigits n) = n :=
  (natDigitsAux_spec (n + 1) n (by omega)).1

theorem natDigits_ne_nil (n : Nat) : natDigits n ≠ [] :=
  (natDigitsAux_spec (n + 1) n (by omega)).2.1

theorem natDigits_all_digits (n : Nat) : ∀ c ∈ natDigits n, isDigitChar c = true :=
  (natDigitsAux_spec (n + 1) n (by omega)).2.2

/-- A decimal digit character is none of the separator characters the
list/range machinery is sensitive to. -/
theorem digit_plain (c : Char) (h : isDigitChar c = true) :
    pyIsSpace c = false ∧ c ≠ ',' ∧ c ≠ squote ∧ c ≠ '-' ∧ c ≠ '+' ∧
    c ≠ '(' ∧ c ≠ '[' ∧ c ≠ ')' ∧ c ≠ ']' := by
  simp only [isDigitChar, Bool.and_eq_true, decide_eq_true_eq] at h
  refine ⟨?_, ?_, ?_, ?_, ?_, ?_, ?_, ?_, ?_⟩
  · simp only [pyIsSpace, Bool.or_eq_false_iff, decide_eq_false_iff_not]
    refine ⟨⟨⟨⟨⟨?_, ?_⟩, ?_⟩, ?_⟩, ?_⟩, ?_⟩ <;>
      · intro hc; subst hc; exact absurd h (by decide)
  all_goals intro hc; subst hc; exact absurd h (by decide)

/-! ### Helper lemmas: dict and lookup -/

theorem lookup_dictSet_self (l : List (String × Parameter)) (k : String) (p : Parameter) :
    alookup k (dictSet l k p) = some p := by
  induction l with
  | nil => simp [dictSet, alookup]
  | cons kp rest ih =>
    by_cases h : kp.1 = k
    · simp [dictSet, h, alookup]
    · simp [dictSet, h, alookup, ih]

/-! ### Helper lemmas: string primitives -/

theorem dropWhile_eq_self_of_all {p : Char → Bool} {cs : List Char}
    (h : ∀ c ∈ cs, p c = false) : cs.dropWhile p = cs := by
  cases cs with
  | nil => rfl
  | cons c rest => simp [List.dropWhile_cons, h c (by simp)]

theorem stripWS_eq_self {cs : List Char} (h : ∀ c ∈ cs, pyIsSpace c = false) :
    stripWS cs = cs := by
  unfold stripWS
  rw [dropWhile_eq_self_of_all h,
    dropWhile_eq_self_of_all (fun c hc => h c (List.mem_reverse.mp hc)),
    List.reverse_reverse]

theorem splitOnChar_not_mem {sep : Char} {cs : List Char} (h : sep ∉ cs) :
    splitOnChar sep cs = [cs] := by
  induction cs with
  | nil => rfl
  | cons c rest ih =>
    have hc : c ≠ sep := fun hc => h (hc ▸ List.mem_cons_self c rest)
    have hrest : sep ∉ rest := fun hr => h (List.mem_cons_of_mem c hr)
    simp [splitOnChar, hc, ih hrest]

theorem splitOnChar_append {sep : Char} {a : List Char} (b : List Char) (h : sep ∉ a) :
    splitOnChar sep (a ++ sep :: b) = a :: splitOnChar sep b := by
  induction a with
  | nil => simp [splitOnChar]
  | cons c rest ih =>
    have hc : c ≠ sep := fun hc => h (hc ▸ List.mem_cons_self c rest)
    have hrest : sep ∉ rest := fun hr => h (List.mem_cons_of_mem c hr)
    simp [splitOnChar, hc, ih hrest]

/-- An element whose characters are free of whitespace and single quotes
passes through the cleanup loop verbatim. -/
theorem cleanElement_plain {cs : List Char} (hne : cs ≠ [])
    (hsp : ∀ c ∈ cs, pyIsSpace c = false) (hq : ∀ c ∈ cs, c ≠ squote) :
    cleanElement cs = .ok (String.mk cs) := by
  unfold cleanElement
  rw [stripWS_eq_self hsp]
  cases cs with
  | nil => exact absurd rfl hne
  | cons c rest =>
    have hcq : c ≠ squote := hq c (by simp)
    simp only [hcq, if_false]
    cases hlast : (c :: rest).getLast? with
    | none => simp [List.getLast?] at hlast
    | some d =>
      have hd : d ∈ c :: rest := by
        obtain ⟨hne2, rfl⟩ := List.mem_getLast?_eq_getLast (l := c :: rest) (x := d) hlast
        exact List.getLast_mem hne2
      simp [hq d hd]

theorem intToStr_plain (i : Int) :
    (intToStr i).data ≠ [] ∧
    ∀ c ∈ (intToStr i).data, pyIsSpace c = false ∧ c ≠ ',' ∧ c ≠ squote := by
  by_cases hneg : i < 0
  · refine ⟨by simp [intToStr, hneg], ?_⟩
    intro c hc
    simp [intToStr, hneg] at hc
    rcases hc with hc | hc
    · subst hc; exact ⟨by decide, by decide, by decide⟩
    · obtain ⟨h1, h2, h3, -⟩ := digit_plain c (natDigits_all_digits _ c hc)
      exact ⟨h1, h2, h3⟩
  · refine ⟨by simp [intToStr, hneg, natToStr]; exact natDigits_ne_nil _, ?_⟩
    intro c hc
    simp [intToStr, hneg, natToStr] at hc
    obtain ⟨h1, h2, h3, -⟩ := digit_plain c (natDigits_all_digits _ c hc)
    exact ⟨h1, h2, h3⟩

theorem pyIntParse_intToStr (i : Int) : pyIntParse (intToStr i) = some i := by
  by_cases hneg : i < 0
  · have hdata : (intToStr i).data = '-' :: natDigits i.natAbs := by
      simp [intToStr, hneg]
    have hsp : ∀ c ∈ (intToStr i).data, pyIsSpace c = false :=
      fun c hc => ((intToStr_plain i).2 c hc).1
    unfold pyIntParse
    rw [hdata]
    rw [hdata] at hsp
    rw [stripWS_eq_self hsp]
    have hall : (natDigits i.natAbs).all isDigitChar = true :=
      List.all_eq_true.mpr (fun c hc => natDigits_all_digits _ c hc)
    simp [natDigits_ne_nil i.natAbs, hall, digitsToNat_natDigits]
    rw [abs_of_neg hneg]
    ring
  · have hdata : (intToStr i).data = natDigits i.natAbs := by
      simp [intToStr, hneg, natToStr]
    have hsp : ∀ c ∈ (intToStr i).data, pyIsSpace c = false :=
      fun c hc => ((intToStr_plain i).2 c hc).1
    unfold pyIntParse
    rw [hdata]
    rw [hdata] at hsp
    rw [stripWS_eq_self hsp]
    cases hnd : natDigits i.natAbs with
    | nil => exact absurd hnd (natDigits_ne_nil _)
    | cons c rest =>
      have hcd : isDigitChar c = true := natDigits_all_digits _ c (by rw [hnd]; simp)
      obtain ⟨-, -, -, hm, hp, -⟩ := digit_plain c hcd
      have hall : (c :: rest).all isDigitChar = true := by
        rw [← hnd]
        exact List.all_eq_true.mpr (fun x hx => natDigits_all_digits _ x hx)
      simp [hm, hp, hall]
      rw [← hnd, digitsToNat_natDigits]
      omega

/-! ### Helper lemmas: register behavior shapes

Each `register_*` operation, on a key not yet registered, either reads and
parses the query field (touched parameter), falls back to the default
(untouched parameter), or propagates the conversion failure.  The following
lemmas establish those three shapes; the claim theorems assemble them. -/

theorem reg_int_absent (st : RegState) (key : String) (dv : Int)
    (hfresh : _already_registered st key = false)
    (hq : alookup key st.query = none) :
    register_int_parameter st key dv =
      .ok (withParam st key (Parameter.init key (.vint dv) false pyStr)) := by
  unfold register_int_parameter
  simp [hfresh, _fetch_url_field, hq, withParam, pure, Except.pure, bind, Except.bind]

theorem reg_int_present (st : RegState) (key : String) (dv : Int) (raw : String) (n : Int)
    (hfresh : _already_registered st key = false)
    (hq : alookup key st.query = some raw) (hp : pyIntParse raw = some n) :
    register_int_parameter st key dv =
      .ok (withParam st key (Parameter.init key (.vint n) true pyStr)) := by
  unfold register_int_parameter
  simp [hfresh, _fetch_url_field, hq, hp, withParam, pure, Except.pure, bind, Except.bind]

theorem reg_int_badparse (st : RegState) (key : String) (dv : Int) (raw : String)
    (hfresh : _already_registered st key = false)
    (hq : alookup key st.query = some raw) (hp : pyIntParse raw = none) :
    register_int_parameter st key dv = .error .valueError := by
  unfold register_int_parameter
  simp [hfresh, _fetch_url_field, hq, hp, Except.map, throw, throwThe, MonadExceptOf.throw]

theorem reg_float_absent (st : RegState) (key : String) (dv : Rat)
    (hfresh : _already_registered st key = false)
    (hq : alookup key st.query = none) :
    register_float_parameter st key dv =
      .ok (withParam st key (Parameter.init key (.vfloat dv) false pyStr)) := by
  unfold register_float_parameter
  simp [hfresh, _fetch_url_field, hq, withParam, pure, Except.pure, bind, Except.bind]

theorem reg_float_present (st : RegState) (key : String) (dv : Rat) (raw : String) (x : Rat)
    (hfresh : _already_registered st key = false)
    (hq : alookup key st.query = some raw) (hp : pyFloatParse raw = some x) :
    register_float_parameter st key dv =
      .ok (withParam st key (Parameter.init key (.vfloat x) true pyStr)) := by
  unfold register_float_parameter
  simp [hfresh, _fetch_url_field, hq, hp, withParam, pure, Except.pure, bind, Except.bind]

theorem reg_float_badparse (st : RegState) (key : String) (dv : Rat) (raw : String)
    (hfresh : _already_registered st key = false)
    (hq : alookup key st.query = some raw) (hp : pyFloatParse raw = none) :
    register_float_parameter st key dv = .error .valueError := by
  unfold register_float_parameter
  simp [hfresh, _fetch_url_field, hq, hp, Except.map, throw, throwThe, MonadExceptOf.throw]

theorem reg_string_absent (st : RegState) (key : String) (dv : String)
    (hfresh : _already_registered st key = false)
    (hq : alookup key st.query = none) :
    register_string_parameter st key dv =
      .ok (withParam st key (Parameter.init key (.vstr dv) false pyStr)) := by
  unfold register_string_parameter
  simp [hfresh, _fetch_url_field, hq, withParam, pure, Except.pure, bind, Except.bind]

theorem reg_string_present (st : RegState) (key : String) (dv : String) (raw : String)
    (hfresh : _already_registered st key = false)
    (hq : alookup key st.query = some raw) :
    register_string_parameter st key dv =
      .ok (withParam st key (Parameter.init key (.vstr raw) true pyStr)) := by
  unfold register_string_parameter
  simp [hfresh, _fetch_url_field, hq, withParam, pure, Except.pure, bind, Except.bind]

theorem reg_bool_absent (st : RegState) (key : String) (dv : Bool)
    (hfresh : _already_registered st key = false)
    (hq : alookup key st.query = none) :
    register_bool_parameter st key dv =
      .ok (withParam st key (Parameter.init key (.vbool dv) false pyStr)) := by
  unfold register_bool_parameter
  simp [hfresh, _fetch_url_field, hq, withParam, pure, Except.pure, bind, Except.bind]

theorem reg_bool_present (st : RegState) (key : String) (dv : Bool) (raw : String)
    (hfresh : _already_registered st key = false)
    (hq : alookup key st.query = some raw) :
    register_bool_parameter st key dv =
      .ok (withParam st key (Parameter.init key
        (.vbool (["true", "false", "yes", "no"].contains (pyLower raw))) true pyStr)) := by
  unfold register_bool_parameter
  simp [hfresh, _fetch_url_field, hq, withParam, pure, Except.pure, bind, Except.bind]

theorem reg_date_absent (st : RegState) (key : String) (dv : Nat × Nat × Nat)
    (hfresh : _already_registered st key = false)
    (hq : alookup key st.query = none) :
    register_date_parameter st key dv =
      .ok (withParam st key (Parameter.init key (.vdate dv.1 dv.2.1 dv.2.2) false pyStr)) := by
  unfold register_date_parameter
  simp [hfresh, _fetch_url_field, hq, withParam, pure, Except.pure, bind, Except.bind]

theorem reg_date_present (st : RegState) (key : String) (dv : Nat × Nat × Nat)
    (raw : String) (d : Nat × Nat × Nat)
    (hfresh : _already_registered st key = false)
    (hq : alookup key st.query = some raw) (hp : pyDateParse raw = some d) :
    register_date_parameter st key dv =
      .ok (withParam st key (Parameter.init key (.vdate d.1 d.2.1 d.2.2) true pyStr)) := by
  unfold register_date_parameter
  simp [hfresh, _fetch_url_field, hq, hp, withParam, pure, Except.pure, bind, Except.bind]

theorem reg_date_badparse (st : RegState) (key : String) (dv : Nat × Nat × Nat) (raw : String)
    (hfresh : _already_registered st key = false)
    (hq : alookup key st.query = some raw) (hp : pyDateParse raw = none) :
    register_date_parameter st key dv = .error .valueError := by
  unfold register_date_parameter
  simp [hfresh, _fetch_url_field, hq, hp, Except.map, throw, throwThe, MonadExceptOf.throw]

theorem read_keyError (q : List (String × String)) (key : String)
    (hq : alookup key q = none) : _read_list_or_tuple q key = .error .keyError := by
  unfold _read_list_or_tuple
  simp [_fetch_url_field, hq, bind, Except.bind]

theorem reg_range_absent (st : RegState) (key : String) (dv : Value × Value)
    (convert : String → Except PyErr Value)
    (hfresh : _already_registered st key = false)
    (hq : alookup key st.query = none) :
    _register_range_parameter st key dv convert =
      .ok (withParam st key (Parameter.init key (.vpair dv.1 dv.2) false
        _convert_list_or_tuple)) := by
  unfold _register_range_parameter
  simp [hfresh, read_keyError st.query key hq, withParam,
    pure, Except.pure, bind, Except.bind]

theorem reg_range_present (st : RegState) (key : String) (dv : Value × Value)
    (convert : String → Except PyErr Value) (raws : List String) (a b : Value)
    (hfresh : _already_registered st key = false)
    (hr : _read_list_or_tuple st.query key = .ok raws)
    (hc : convertAll convert raws = .ok [a, b]) :
    _register_range_parameter st key dv convert =
      .ok (withParam st key (Parameter.init key (.vpair a b) true
        _convert_list_or_tuple)) := by
  unfold _register_range_parameter
  simp [hfresh, hr, hc, withParam, pure, Except.pure, bind, Except.bind]

theorem reg_range_badcount (st : RegState) (key : String) (dv : Value × Value)
    (convert : String → Except PyErr Value) (raws : List String) (parts : List Value)
    (hfresh : _already_registered st key = false)
    (hr : _read_list_or_tuple st.query key = .ok raws)
    (hc : convertAll convert raws = .ok parts) (hlen : parts.length ≠ 2) :
    _register_range_parameter st key dv convert = .error .assertError := by
  unfold _register_range_parameter
  rcases parts with _ | ⟨a, _ | ⟨b, _ | ⟨c, more⟩⟩⟩ <;>
    simp_all [hfresh, hr, hc, pure, Except.pure, bind, Except.bind,
      Except.map, throw, throwThe, MonadExceptOf.throw]

theorem reg_range_badconvert (st : RegState) (key : String) (dv : Value × Value)
    (convert : String → Except PyErr Value) (raws : List String)
    (hfresh : _already_registered st key = false)
    (hr : _read_list_or_tuple st.query key = .ok raws)
    (hc : convertAll convert raws = .error .valueError) :
    _register_range_parameter st key dv convert = .error .valueError := by
  unfold _register_range_parameter
  simp [hfresh, hr, hc, pure, Except.pure, bind, Except.bind,
    Except.map, throw, throwThe, MonadExceptOf.throw]

theorem reg_range_readerr (st : RegState) (key : String) (dv : Value × Value)
    (convert : String → Except PyErr Value)
    (hr : _read_list_or_tuple st.query key = .error .indexError)
    (hfresh : _already_registered st key = false) :
    _register_range_parameter st key dv convert = .error .indexError := by
  unfold _register_range_parameter
  simp [hfresh, hr, pure, Except.pure, bind, Except.bind,
    Except.map, throw, throwThe, MonadExceptOf.throw]

theorem reg_strlist_absent (st : RegState) (key : String) (dv : List String)
    (hfresh : _already_registered st key = false)
    (hq : alookup key st.query = none) :
    register_string_list_parameter st key dv =
      .ok (withParam st key (Parameter.init key (.vlist (dv.map Value.vstr)) false pyStr)) := by
  unfold register_string_list_parameter
  simp [hfresh, read_keyError st.query key hq, withParam,
    pure, Except.pure, bind, Except.bind]

theorem reg_strlist_present (st : RegState) (key : String) (dv : List String)
    (values : List String)
    (hfresh : _already_registered st key = false)
    (hr : _read_list_or_tuple st.query key = .ok values) :
    register_string_list_parameter st key dv =
      .ok (withParam st key (Parameter.init key (.vlist (values.map Value.vstr)) true pyStr)) := by
  unfold register_string_list_parameter
  simp [hfresh, hr, withParam, pure, Except.pure, bind, Except.bind]

theorem reg_strlist_readerr (st : RegState) (key : String) (dv : List String)
    (hfresh : _already_registered st key = false)
    (hr : _read_list_or_tuple st.query key = .error .indexError) :
    register_string_list_parameter st key dv = .error .indexError := by
  unfold register_string_list_parameter
  simp [hfresh, hr, pure, Except.pure, bind, Except.bind,
    Except.map, throw, throwThe, MonadExceptOf.throw]

theorem reg_boollist_absent (st : RegState) (key : String) (dv : List Bool)
    (hfresh : _already_registered st key = false)
    (hq : alookup key st.query = none) :
    register_boolean_list_parameter st key dv =
      .ok (withParam st key (Parameter.init key (.vlist (dv.map Value.vbool)) false pyStr)) := by
  unfold register_boolean_list_parameter
  simp [hfresh, read_keyError st.query key hq, withParam,
    pure, Except.pure, bind, Except.bind]

theorem reg_boollist_present (st : RegState) (key : String) (dv : List Bool)
    (values : List String) (ns : List Nat)
    (hfresh : _already_registered st key = false)
    (hr : _read_list_or_tuple st.query key = .ok values)
    (hs : strtoboolAll values = .ok ns) :
    register_boolean_list_parameter st key dv =
      .ok (withParam st key (Parameter.init key
        (.vlist (ns.map (fun n => Value.vint n))) true pyStr)) := by
  unfold register_boolean_list_parameter
  simp [hfresh, hr, hs, withParam, pure, Except.pure, bind, Except.bind]

theorem reg_boollist_badtoken (st : RegState) (key : String) (dv : List Bool)
    (values : List String)
    (hfresh : _already_registered st key = false)
    (hr : _read_list_or_tuple st.query key = .ok values)
    (hs : strtoboolAll values = .error .valueError) :
    register_boolean_list_parameter st key dv = .error .valueError := by
  unfold register_boolean_list_parameter
  simp [hfresh, hr, hs, pure, Except.pure, bind, Except.bind,
    Except.map, throw, throwThe, MonadExceptOf.throw]

/-! ### Helper lemmas: export -/

theorem lookup_export_not_mem (l : List (String × Parameter)) (flag : Bool) (k : String)
    (h : k ∉ l.map Prod.fst) :
    alookup k (l.filterMap (fun kp =>
      if flag || kp.2.touched then some (kp.1, kp.2.to_str kp.2.value) else none))
      = none := by
  induction l with
  | nil => rfl
  | cons kp rest ih =>
    simp only [List.map_cons, List.mem_cons, not_or] at h
    have hk : kp.1 ≠ k := fun he => h.1 he.symm
    rw [List.filterMap_cons]
    cases hf : (flag || kp.2.touched) with
    | true =>
      show alookup k ((kp.1, kp.2.to_str kp.2.value) :: List.filterMap _ rest) = none
      simp only [alookup]
      rw [if_neg hk]
      exact ih h.2
    | false =>
      show alookup k (List.filterMap _ rest) = none
      exact ih h.2

/-- Complete characterization of the exported query mapping built by
`set_url_fields`, for a registry with unique keys (a Python dict cannot have
duplicates). -/
theorem lookup_export (l : List (String × Parameter)) (flag : Bool) (k : String)
    (hnd : (l.map Prod.fst).Nodup) :
    alookup k (l.filterMap (fun kp =>
      if flag || kp.2.touched then some (kp.1, kp.2.to_str kp.2.value) else none))
      = match alookup k l with
        | some p => if flag || p.touched then some (p.to_str p.value) else none
        | none => none := by
  induction l with
  | nil => rfl
  | cons kp rest ih =>
    simp only [List.map_cons, List.nodup_cons] at hnd
    rw [List.filterMap_cons]
    by_cases hk : kp.1 = k
    · cases hf : (flag || kp.2.touched) with
      | true =>
        show alookup k ((kp.1, kp.2.to_str kp.2.value) :: List.filterMap _ rest)
          = match alookup k (kp :: rest) with
            | some p => if flag || p.touched then some (p.to_str p.value) else none
            | none => none
        simp only [alookup]
        rw [if_pos hk, if_pos hk]
        simp [hf]
      | false =>
        show alookup k (List.filterMap _ rest)
          = match alookup k (kp :: rest) with
            | some p => if flag || p.touched then some (p.to_str p.value) else none
            | none => none
        have hnm : k ∉ rest.map Prod.fst := hk ▸ hnd.1
        simp only [alookup]
        rw [if_pos hk]
        simpa [hf] using lookup_export_not_mem rest flag k hnm
    · cases hf : (flag || kp.2.touched) with
      | true =>
        show alookup k ((kp.1, kp.2.to_str kp.2.value) :: List.filterMap _ rest)
          = match alookup k (kp :: rest) with
            | some p => if flag || p.touched then some (p.to_str p.value) else none
            | none => none
        simp only [alookup]
        rw [if_neg hk, if_neg hk]
        exact ih hnd.2
      | false =>
        show alookup k (List.filterMap _ rest)
          = match alookup k (kp :: rest) with
            | some p => if flag || p.touched then some (p.to_str p.value) else none
            | none => none
        simp only [alookup]
        rw [if_neg hk]
        exact ih hnd.2

/-- The exported query mapping of `set_url_fields`, keyed characterization. -/
theorem set_url_fields_lookup (st : RegState) (k : String)
    (hnd : (st.parameters.map Prod.fst).Nodup) :
    alookup k (set_url_fields st).query
      = match alookup k st.parameters with
        | some p => if st.set_all || p.touched then some (p.to_str p.value) else none
        | none => none :=
  lookup_export st.parameters st.set_all k hnd

/-! ### Claim theorems -/

/-- C7: for every Parameter and every new value, `update` sets `value` to the
new value and `touched` to `true`, and leaves `default`, `key` and the
serializer unchanged — unconditionally, with no validation of the value. -/
theorem update_sets_value_and_touched_only (p : Parameter) (v : Value) :
    (p.update v).value = v ∧ (p.update v).touched = true ∧
    (p.update v).default = p.default ∧ (p.update v).key = p.key ∧
    (p.update v).to_str = p.to_str :=
  ⟨rfl, rfl, rfl, rfl, rfl⟩

/-- C3: for every registration operation, a second registration of a key
already present in the registry is a no-op: the call returns immediately with
the session state (registry included) unchanged, for any new default and any
query-string contents. -/
theorem reregistration_is_noop (st : RegState) (key : String)
    (h : _already_registered st key = true) :
    (∀ dv, register_int_parameter st key dv = .ok st) ∧
    (∀ dv, register_float_parameter st key dv = .ok st) ∧
    (∀ dv, register_string_parameter st key dv = .ok st) ∧
    (∀ dv, register_bool_parameter st key dv = .ok st) ∧
    (∀ dv, register_date_parameter st key dv = .ok st) ∧
    (∀ dv, register_int_range_parameter st key dv = .ok st) ∧
    (∀ dv, register_float_range_parameter st key dv = .ok st) ∧
    (∀ dv, register_date_range_parameter st key dv = .ok st) ∧
    (∀ dv, register_string_list_parameter st key dv = .ok st) ∧
    (∀ dv, register_boolean_list_parameter st key dv = .ok st) := by
  refine ⟨?_, ?_, ?_, ?_, ?_, ?_, ?_, ?_, ?_, ?_⟩ <;> intro dv <;>
    simp [register_int_parameter, register_float_parameter, register_string_parameter,
      register_bool_parameter, register_date_parameter, register_int_range_parameter,
      register_float_range_parameter, register_date_range_parameter,
      _register_range_parameter, register_string_list_parameter,
      register_boolean_list_parameter, h]

/-- Witness for C3 at a concrete state: the key is registered, and
re-registration with a different default (and a parseable query entry in
place) returns the state unchanged. -/
theorem reregistration_is_noop_witness :
    _already_registered wRegistered "k" = true ∧
    register_int_parameter wRegistered "k" 5 = .ok wRegistered ∧
    register_string_list_parameter wRegistered "k" ["x"] = .ok wRegistered := by
  have h := reregistration_is_noop wRegistered "k" rfl
  exact ⟨rfl, h.1 5, h.2.2.2.2.2.2.2.2.1 ["x"]⟩

/-- C5: for any raw string present under the key, boolean registration
constructs a touched parameter whose default is the case-insensitive
membership test of the raw value in true/false/yes/no — so the raw value
"false" yields default `true` — and boolean registration never signals a
conversion failure, whatever the raw value. -/
theorem bool_registration_membership_quirk (st : RegState) (key : String)
    (hfresh : _already_registered st key = false) :
    (∀ dv raw, alookup key st.query = some raw →
      register_bool_parameter st key dv =
        .ok (withParam st key (Parameter.init key
          (.vbool (["true", "false", "yes", "no"].contains (pyLower raw))) true pyStr))) ∧
    (∀ dv raw, alookup key st.query = some raw → pyLower raw = "false" →
      ∃ st2 p, register_bool_parameter st key dv = .ok st2 ∧
        alookup key st2.parameters = some p ∧
        p.default = .vbool true ∧ p.touched = true) ∧
    (∀ dv, ∃ st2, register_bool_parameter st key dv = .ok st2) := by
  refine ⟨fun dv raw hq => reg_bool_present st key dv raw hfresh hq, ?_, ?_⟩
  · intro dv raw hq hlow
    refine ⟨_, _, reg_bool_present st key dv raw hfresh hq, lookup_dictSet_self _ _ _, ?_, rfl⟩
    rw [hlow]
    rfl
  · intro dv
    cases hq : alookup key st.query with
    | none => exact ⟨_, reg_bool_absent st key dv hfresh hq⟩
    | some raw => exact ⟨_, reg_bool_present st key dv raw hfresh hq⟩

/-- Witness for C5: registering the boolean key "flag" against the raw query
value "false" succeeds, touched, with default `true`. -/
theorem bool_registration_membership_quirk_witness :
    ∃ st2 p, register_bool_parameter wBoolState "flag" false = .ok st2 ∧
      alookup "flag" st2.parameters = some p ∧
      p.default = .vbool true ∧ p.touched = true :=
  (bool_registration_membership_quirk wBoolState "flag" rfl).2.1 false "false" rfl rfl

/-- C2: `set_url_fields` includes a registered key in the outgoing query
payload iff the export-all flag is set or that parameter is touched; the
written string is the serializer applied to the current value; and the write
replaces the entire prior query-string content (it does not merge). -/
theorem export_iff_set_all_or_touched (st : RegState) (k : String)
    (hnd : (st.parameters.map Prod.fst).Nodup) :
    ((alookup k (set_url_fields st).query).isSome ↔
      ∃ p, alookup k st.parameters = some p ∧
        (st.set_all = true ∨ p.touched = true)) ∧
    (∀ p, alookup k st.parameters = some p → st.set_all = true ∨ p.touched = true →
      alookup k (set_url_fields st).query = some (p.to_str p.value)) ∧
    (∀ q0, (set_url_fields { st with query := q0 }).query = (set_url_fields st).query) := by
  have hchar := set_url_fields_lookup st k hnd
  refine ⟨?_, ?_, fun q0 => rfl⟩
  · cases hp : alookup k st.parameters with
    | none =>
      have hq : alookup k (set_url_fields st).query = none := by rw [hchar, hp]
      rw [hq]
      refine iff_of_false (fun h => Bool.false_ne_true h) ?_
      rintro ⟨p2, he, -⟩
      exact Option.noConfusion he
    | some p =>
      have hq : alookup k (set_url_fields st).query
          = if (st.set_all || p.touched) = true then some (p.to_str p.value) else none := by
        rw [hchar, hp]
      rw [hq]
      cases hf : (st.set_all || p.touched) with
      | true => exact iff_of_true rfl ⟨p, rfl, by simpa using hf⟩
      | false =>
        refine iff_of_false (fun h => Bool.false_ne_true h) ?_
        rintro ⟨p2, he, hor⟩
        obtain rfl : p = p2 := Option.some.inj he
        have hcon : (st.set_all || p.touched) = true := by simpa using hor
        rw [hf] at hcon
        exact Bool.false_ne_true hcon
  · intro p hp hor
    have hq : alookup k (set_url_fields st).query
        = if (st.set_all || p.touched) = true then some (p.to_str p.value) else none := by
      rw [hchar, hp]
    have hf : (st.set_all || p.touched) = true := by simpa using hor
    rw [hq, if_pos hf]

/-- Witness for C2: with export-all off, the touched key "a" is exported with
its serialized value, and the prior query content is fully replaced. -/
theorem export_iff_set_all_or_touched_witness :
    alookup "a" (set_url_fields wExportState).query = some "1" ∧
    (set_url_fields { wExportState with query := [] }).query
      = (set_url_fields wExportState).query := by
  have h := export_iff_set_all_or_touched wExportState "a" (by decide)
  exact ⟨h.2.1 (Parameter.init "a" (.vint 1) true pyStr) rfl (Or.inr rfl), h.2.2 []⟩

/-- C1: for every supported parameter type, registering a fresh key with no
query-string entry constructs a parameter with `default == value ==
default_value` and `touched == false`; registering a fresh key whose
query-string entry parses successfully constructs a parameter with
`default == value == parsed value` and `touched == true`. -/
theorem registration_default_vs_query (st : RegState) (key : String)
    (hfresh : _already_registered st key = false) :
    (alookup key st.query = none →
      (∀ dv : Int, ∃ st2 p, register_int_parameter st key dv = .ok st2 ∧
        alookup key st2.parameters = some p ∧
        p.default = .vint dv ∧ p.value = .vint dv ∧ p.touched = false) ∧
      (∀ dv : Rat, ∃ st2 p, register_float_parameter st key dv = .ok st2 ∧
        alookup key st2.parameters = some p ∧
        p.default = .vfloat dv ∧ p.value = .vfloat dv ∧ p.touched = false) ∧
      (∀ dv : String, ∃ st2 p, register_string_parameter st key dv = .ok st2 ∧
        alookup key st2.parameters = some p ∧
        p.default = .vstr dv ∧ p.value = .vstr dv ∧ p.touched = false) ∧
      (∀ dv : Bool, ∃ st2 p, register_bool_parameter st key dv = .ok st2 ∧
        alookup key st2.parameters = some p ∧
        p.default = .vbool dv ∧ p.value = .vbool dv ∧ p.touched = false) ∧
      (∀ dv : Nat × Nat × Nat, ∃ st2 p, register_date_parameter st key dv = .ok st2 ∧
        alookup key st2.parameters = some p ∧
        p.default = .vdate dv.1 dv.2.1 dv.2.2 ∧ p.value = .vdate dv.1 dv.2.1 dv.2.2 ∧
        p.touched = false) ∧
      (∀ dv : Int × Int, ∃ st2 p, register_int_range_parameter st key dv = .ok st2 ∧
        alookup key st2.parameters = some p ∧
        p.default = .vpair (.vint dv.1) (.vint dv.2) ∧
        p.value = .vpair (.vint dv.1) (.vint dv.2) ∧ p.touched = false) ∧
      (∀ dv : Rat × Rat, ∃ st2 p, register_float_range_parameter st key dv = .ok st2 ∧
        alookup key st2.parameters = some p ∧
        p.default = .vpair (.vfloat dv.1) (.vfloat dv.2) ∧
        p.value = .vpair (.vfloat dv.1) (.vfloat dv.2) ∧ p.touched = false) ∧
      (∀ dv : (Nat × Nat × Nat) × (Nat × Nat × Nat),
        ∃ st2 p, register_date_range_parameter st key dv = .ok st2 ∧
        alookup key st2.parameters = some p ∧
        p.default = .vpair (.vdate dv.1.1 dv.1.2.1 dv.1.2.2) (.vdate dv.2.1 dv.2.2.1 dv.2.2.2) ∧
        p.value = .vpair (.vdate dv.1.1 dv.1.2.1 dv.1.2.2) (.vdate dv.2.1 dv.2.2.1 dv.2.2.2) ∧
        p.touched = false) ∧
      (∀ dv : List String, ∃ st2 p, register_string_list_parameter st key dv = .ok st2 ∧
        alookup key st2.parameters = some p ∧
        p.default = .vlist (dv.map .vstr) ∧ p.value = .vlist (dv.map .vstr) ∧
        p.touched = false) ∧
      (∀ dv : List Bool, ∃ st2 p, register_boolean_list_parameter st key dv = .ok st2 ∧
        alookup key st2.parameters = some p ∧
        p.default = .vlist (dv.map .vbool) ∧ p.value = .vlist (dv.map .vbool) ∧
        p.touched = false)) ∧
    (∀ raw, alookup key st.query = some raw →
      (∀ (dv : Int) (n : Int), pyIntParse raw = some n →
        ∃ st2 p, register_int_parameter st key dv = .ok st2 ∧
        alookup key st2.parameters = some p ∧
        p.default = .vint n ∧ p.value = .vint n ∧ p.touched = true) ∧
      (∀ (dv : Rat) (x : Rat), pyFloatParse raw = some x →
        ∃ st2 p, register_float_parameter st key dv = .ok st2 ∧
        alookup key st2.parameters = some p ∧
        p.default = .vfloat x ∧ p.value = .vfloat x ∧ p.touched = true) ∧
      (∀ dv : String, ∃ st2 p, register_string_parameter st key dv = .ok st2 ∧
        alookup key st2.parameters = some p ∧
        p.default = .vstr raw ∧ p.value = .vstr raw ∧ p.touched = true) ∧
      (∀ dv : Bool, ∃ st2 p, register_bool_parameter st key dv = .ok st2 ∧
        alookup key st2.parameters = some p ∧
        p.default = .vbool (["true", "false", "yes", "no"].contains (pyLower raw)) ∧
        p.value = .vbool (["true", "false", "yes", "no"].contains (pyLower raw)) ∧
        p.touched = true) ∧
      (∀ (dv : Nat × Nat × Nat) (d : Nat × Nat × Nat), pyDateParse raw = some d →
        ∃ st2 p, register_date_parameter st key dv = .ok st2 ∧
        alookup key st2.parameters = some p ∧
        p.default = .vdate d.1 d.2.1 d.2.2 ∧ p.value = .vdate d.1 d.2.1 d.2.2 ∧
        p.touched = true)) ∧
    (∀ raws, _read_list_or_tuple st.query key = .ok raws →
      (∀ (dv : Int × Int) (a b : Value),
        convertAll (convertWith (fun s => (pyIntParse s).map Value.vint)) raws = .ok [a, b] →
        ∃ st2 p, register_int_range_parameter st key dv = .ok st2 ∧
        alookup key st2.parameters = some p ∧
        p.default = .vpair a b ∧ p.value = .vpair a b ∧ p.touched = true) ∧
      (∀ (dv : Rat × Rat) (a b : Value),
        convertAll (convertWith (fun s => (pyFloatParse s).map Value.vfloat)) raws = .ok [a, b] →
        ∃ st2 p, register_float_range_parameter st key dv = .ok st2 ∧
        alookup key st2.parameters = some p ∧
        p.default = .vpair a b ∧ p.value = .vpair a b ∧ p.touched = true) ∧
      (∀ (dv : (Nat × Nat × Nat) × (Nat × Nat × Nat)) (a b : Value),
        convertAll (convertWith
          (fun s => (pyDateParse s).map (fun d => Value.vdate d.1 d.2.1 d.2.2))) raws
          = .ok [a, b] →
        ∃ st2 p, register_date_range_parameter st key dv = .ok st2 ∧
        alookup key st2.parameters = some p ∧
        p.default = .vpair a b ∧ p.value = .vpair a b ∧ p.touched = true) ∧
      (∀ dv : List String, ∃ st2 p, register_string_list_parameter st key dv = .ok st2 ∧
        alookup key st2.parameters = some p ∧
        p.default = .vlist (raws.map .vstr) ∧ p.value = .vlist (raws.map .vstr) ∧
        p.touched = true) ∧
      (∀ (dv : List Bool) (ns : List Nat), strtoboolAll raws = .ok ns →
        ∃ st2 p, register_boolean_list_parameter st key dv = .ok st2 ∧
        alookup key st2.parameters = some p ∧
        p.default = .vlist (ns.map (fun n => .vint n)) ∧
        p.value = .vlist (ns.map (fun n => .vint n)) ∧ p.touched = true)) := by
  refine ⟨fun hq => ⟨?_, ?_, ?_, ?_, ?_, ?_, ?_, ?_, ?_, ?_⟩,
    fun raw hq => ⟨?_, ?_, ?_, ?_, ?_⟩,
    fun raws hr => ⟨?_, ?_, ?_, ?_, ?_⟩⟩
  · exact fun dv => ⟨_, _, reg_int_absent st key dv hfresh hq,
      lookup_dictSet_self _ _ _, rfl, rfl, rfl⟩
  · exact fun dv => ⟨_, _, reg_float_absent st key dv hfresh hq,
      lookup_dictSet_self _ _ _, rfl, rfl, rfl⟩
  · exact fun dv => ⟨_, _, reg_string_absent st key dv hfresh hq,
      lookup_dictSet_self _ _ _, rfl, rfl, rfl⟩
  · exact fun dv => ⟨_, _, reg_bool_absent st key dv hfresh hq,
      lookup_dictSet_self _ _ _, rfl, rfl, rfl⟩
  · exact fun dv => ⟨_, _, reg_date_absent st key dv hfresh hq,
      lookup_dictSet_self _ _ _, rfl, rfl, rfl⟩
  · exact fun dv => ⟨_, _, reg_range_absent st key (.vint dv.1, .vint dv.2) _ hfresh hq,
      lookup_dictSet_self _ _ _, rfl, rfl, rfl⟩
  · exact fun dv => ⟨_, _, reg_range_absent st key (.vfloat dv.1, .vfloat dv.2) _ hfresh hq,
      lookup_dictSet_self _ _ _, rfl, rfl, rfl⟩
  · exact fun dv => ⟨_, _,
      reg_range_absent st key
        (.vdate dv.1.1 dv.1.2.1 dv.1.2.2, .vdate dv.2.1 dv.2.2.1 dv.2.2.2) _ hfresh hq,
      lookup_dictSet_self _ _ _, rfl, rfl, rfl⟩
  · exact fun dv => ⟨_, _, reg_strlist_absent st key dv hfresh hq,
      lookup_dictSet_self _ _ _, rfl, rfl, rfl⟩
  · exact fun dv => ⟨_, _, reg_boollist_absent st key dv hfresh hq,
      lookup_dictSet_self _ _ _, rfl, rfl, rfl⟩
  · exact fun dv n hp => ⟨_, _, reg_int_present st key dv raw n hfresh hq hp,
      lookup_dictSet_self _ _ _, rfl, rfl, rfl⟩
  · exact fun dv x hp => ⟨_, _, reg_float_present st key dv raw x hfresh hq hp,
      lookup_dictSet_self _ _ _, rfl, rfl, rfl⟩
  · exact fun dv => ⟨_, _, reg_string_present st key dv raw hfresh hq,
      lookup_dictSet_self _ _ _, rfl, rfl, rfl⟩
  · exact fun dv => ⟨_, _, reg_bool_present st key dv raw hfresh hq,
      lookup_dictSet_self _ _ _, rfl, rfl, rfl⟩
  · exact fun dv d hp => ⟨_, _, reg_date_present st key dv raw d hfresh hq hp,
      lookup_dictSet_self _ _ _, rfl, rfl, rfl⟩
  · exact fun dv a b hc => ⟨_, _,
      reg_range_present st key (.vint dv.1, .vint dv.2) _ raws a b hfresh hr hc,
      lookup_dictSet_self _ _ _, rfl, rfl, rfl⟩
  · exact fun dv a b hc => ⟨_, _,
      reg_range_present st key (.vfloat dv.1, .vfloat dv.2) _ raws a b hfresh hr hc,
      lookup_dictSet_self _ _ _, rfl, rfl, rfl⟩
  · exact fun dv a b hc => ⟨_, _,
      reg_range_present st key
        (.vdate dv.1.1 dv.1.2.1 dv.1.2.2, .vdate dv.2.1 dv.2.2.1 dv.2.2.2) _ raws a b
        hfresh hr hc,
      lookup_dictSet_self _ _ _, rfl, rfl, rfl⟩
  · exact fun dv => ⟨_, _, reg_strlist_present st key dv raws hfresh hr,
      lookup_dictSet_self _ _ _, rfl, rfl, rfl⟩
  · exact fun dv ns hs => ⟨_, _, reg_boollist_present st key dv raws ns hfresh hr hs,
      lookup_dictSet_self _ _ _, rfl, rfl, rfl⟩

/-- Witness for C1: at the concrete fresh session, the key without a query
entry gets the caller default untouched, and the key with the entry `7` gets
the parsed value, touched. -/
theorem registration_default_vs_query_witness :
    (∃ st2 p, register_int_parameter wFresh "j" 5 = .ok st2 ∧
      alookup "j" st2.parameters = some p ∧
      p.default = .vint 5 ∧ p.value = .vint 5 ∧ p.touched = false) ∧
    (∃ st2 p, register_int_parameter wFresh "k" 0 = .ok st2 ∧
      alookup "k" st2.parameters = some p ∧
      p.default = .vint 7 ∧ p.value = .vint 7 ∧ p.touched = true) := by
  have h1 := ((registration_default_vs_query wFresh "j" rfl).1 rfl).1 5
  have h2 := (((registration_default_vs_query wFresh "k" rfl).2.1 "7" rfl).1 0 7) rfl
  exact ⟨h1, h2⟩

/-- C6: when the key is present in the query string but the raw value does
not parse into the target type (non-numeric text for int/float, malformed
date, or a range splitting into an element count other than two), the
registration signals the failure to the caller and the registry is unchanged
at that key (the dict assignment is never reached). -/
theorem conversion_failure_aborts_registration (st : RegState) (key : String)
    (hfresh : _already_registered st key = false) :
    (∀ (dv : Int) raw, alookup key st.query = some raw → pyIntParse raw = none →
      register_int_parameter st key dv = .error .valueError ∧
      alookup key (runRegister (fun s => register_int_parameter s key dv) st).parameters
        = alookup key st.parameters) ∧
    (∀ (dv : Rat) raw, alookup key st.query = some raw → pyFloatParse raw = none →
      register_float_parameter st key dv = .error .valueError ∧
      alookup key (runRegister (fun s => register_float_parameter s key dv) st).parameters
        = alookup key st.parameters) ∧
    (∀ (dv : Nat × Nat × Nat) raw, alookup key st.query = some raw → pyDateParse raw = none →
      register_date_parameter st key dv = .error .valueError ∧
      alookup key (runRegister (fun s => register_date_parameter s key dv) st).parameters
        = alookup key st.parameters) ∧
    (∀ (dv : Value × Value) (convert : String → Except PyErr Value) raws parts,
      _read_list_or_tuple st.query key = .ok raws →
      convertAll convert raws = .ok parts → parts.length ≠ 2 →
      _register_range_parameter st key dv convert = .error .assertError ∧
      alookup key
        (runRegister (fun s => _register_range_parameter s key dv convert) st).parameters
        = alookup key st.parameters) := by
  refine ⟨?_, ?_, ?_, ?_⟩
  · intro dv raw hq hp
    have he := reg_int_badparse st key dv raw hfresh hq hp
    exact ⟨he, by simp [runRegister, he]⟩
  · intro dv raw hq hp
    have he := reg_float_badparse st key dv raw hfresh hq hp
    exact ⟨he, by simp [runRegister, he]⟩
  · intro dv raw hq hp
    have he := reg_date_badparse st key dv raw hfresh hq hp
    exact ⟨he, by simp [runRegister, he]⟩
  · intro dv convert raws parts hr hc hlen
    have he := reg_range_badcount st key dv convert raws parts hfresh hr hc hlen
    exact ⟨he, by simp [runRegister, he]⟩

/-- Witness for C6: registering the int key against raw "abc" raises the
conversion failure and leaves the registry without the key; likewise for the
three-element range. -/
theorem conversion_failure_aborts_registration_witness :
    (register_int_parameter wBadQuery "n" 0 = .error .valueError ∧
      alookup "n" (runRegister (fun s => register_int_parameter s "n" 0) wBadQuery).parameters
        = alookup "n" wBadQuery.parameters) ∧
    (_register_range_parameter wBadQuery "r" (.vint 0, .vint 0)
        (convertWith (fun s => (pyIntParse s).map Value.vint)) = .error .assertError ∧
      alookup "r" (runRegister (fun s => _register_range_parameter s "r" (.vint 0, .vint 0)
          (convertWith (fun s => (pyIntParse s).map Value.vint))) wBadQuery).parameters
        = alookup "r" wBadQuery.parameters) := by
  have h := conversion_failure_aborts_registration wBadQuery "n" rfl
  have h2 := conversion_failure_aborts_registration wBadQuery "r" rfl
  exact ⟨h.1 0 "abc" rfl rfl,
    h2.2.2.2 (.vint 0, .vint 0) (convertWith (fun s => (pyIntParse s).map Value.vint))
      ["1", "2", "3"] [.vint 1, .vint 2, .vint 3] rfl rfl (by decide)⟩

/-- Evaluate `_read_list_or_tuple` once the raw query value is known. -/
theorem read_eq_of_lookup (q : List (String × String)) (key : String) (raw : String)
    (hq : alookup key q = some raw) :
    _read_list_or_tuple q key =
      (do
        let core ← stripListBrackets raw.data
        if core = [] then pure [] else cleanAll (splitOnChar ',' core)) := by
  unfold _read_list_or_tuple
  simp [_fetch_url_field, hq, bind, Except.bind]

/-- C8 counterexample: boolean-list elements are not parsed by the scalar
four-token membership rule.  The element "on" — outside true/false/yes/no —
is accepted (the claim says no other tokens are), and the element "false"
decodes to the int 0, not to the truthy membership result that the scalar
rule produces for "false". -/
theorem boolean_list_breaks_membership_rule :
    (register_boolean_list_parameter wBoolListOn "k" []).map
      (fun st => (alookup "k" st.parameters).map (fun p => (p.default, p.touched)))
      = .ok (some (.vlist [.vint 1], true)) ∧
    (register_boolean_list_parameter wBoolListFalse "k" []).map
      (fun st => (alookup "k" st.parameters).map (fun p => (p.default, p.touched)))
      = .ok (some (.vlist [.vint 0], true)) ∧
    ["true", "false", "yes", "no"].contains (pyLower "on") = false ∧
    ["true", "false", "yes", "no"].contains (pyLower "false") = true :=
  ⟨rfl, rfl, rfl, rfl⟩

/-- C8 amended: each comma-separated element of a boolean-list query entry is
parsed by `distutils.util.strtobool`, case-insensitively: y/yes/t/true/on/1
give 1, n/no/f/false/off/0 give 0, and any other token signals a conversion
failure that aborts the registration — a faithful per-element decode, not
the scalar membership rule. -/
theorem boolean_list_elements_use_strtobool (st : RegState) (key : String)
    (hfresh : _already_registered st key = false) :
    (∀ (dv : List Bool) raws ns, _read_list_or_tuple st.query key = .ok raws →
      strtoboolAll raws = .ok ns →
      ∃ st2 p, register_boolean_list_parameter st key dv = .ok st2 ∧
        alookup key st2.parameters = some p ∧
        p.default = .vlist (ns.map (fun n => .vint n)) ∧ p.touched = true) ∧
    (∀ (dv : List Bool) raws, _read_list_or_tuple st.query key = .ok raws →
      strtoboolAll raws = .error .valueError →
      register_boolean_list_parameter st key dv = .error .valueError) ∧
    (∀ s, ["y", "yes", "t", "true", "on", "1"].contains (pyLower s) = true →
      strtobool s = .ok 1) ∧
    (∀ s, ["y", "yes", "t", "true", "on", "1"].contains (pyLower s) = false →
      ["n", "no", "f", "false", "off", "0"].contains (pyLower s) = true →
      strtobool s = .ok 0) ∧
    (∀ s, ["y", "yes", "t", "true", "on", "1"].contains (pyLower s) = false →
      ["n", "no", "f", "false", "off", "0"].contains (pyLower s) = false →
      strtobool s = .error .valueError) := by
  refine ⟨?_, ?_, ?_, ?_, ?_⟩
  · intro dv raws ns hr hs
    exact ⟨_, _, reg_boollist_present st key dv raws ns hfresh hr hs,
      lookup_dictSet_self _ _ _, rfl, rfl⟩
  · intro dv raws hr hs
    exact reg_boollist_badtoken st key dv raws hfresh hr hs
  · intro s h1
    simp only [strtobool, h1]
    rfl
  · intro s h1 h0
    simp only [strtobool, h1, h0]
    rfl
  · intro s h1 h0
    simp only [strtobool, h1, h0]
    rfl

/-- Witness for the amended C8: the entry `(yes, 0)` registers as the int
list `[1, 0]`, and the three strtobool cases fire on concrete tokens. -/
theorem boolean_list_elements_use_strtobool_witness :
    (∃ st2 p, register_boolean_list_parameter wBoolListYes0 "k" [] = .ok st2 ∧
      alookup "k" st2.parameters = some p ∧
      p.default = .vlist [.vint 1, .vint 0] ∧ p.touched = true) ∧
    strtobool "On" = .ok 1 ∧ strtobool "Off" = .ok 0 ∧
    strtobool "maybe" = .error .valueError := by
  have h := boolean_list_elements_use_strtobool wBoolListYes0 "k" rfl
  exact ⟨h.1 [] ["yes", "0"] [1, 0] rfl rfl,
    h.2.2.1 "On" rfl, h.2.2.2.1 "Off" rfl rfl, h.2.2.2.2 "maybe" rfl rfl⟩

/-- C9 counterexample: an empty raw query value does not parse to the empty
list — the `raw_str[0]` indexing raises an uncaught IndexError, so string-list
registration fails instead of producing `[]`. -/
theorem empty_raw_string_list_fails :
    register_string_list_parameter wEmptyRaw "k" [] = .error .indexError ∧
    _read_list_or_tuple [("k", "")] "k" = .error .indexError :=
  ⟨rfl, rfl⟩

/-- C9 amended: list parses accept any element count — whatever element list
the read produces is registered, and the bracket-only raw values `()` and
`[]` produce the empty list — but the empty raw string is not accepted: its
first-character index raises an uncaught IndexError and the registration
fails. -/
theorem list_any_count_empty_brackets_ok (st : RegState) (key : String)
    (hfresh : _already_registered st key = false) :
    (∀ (dv : List String) raws, _read_list_or_tuple st.query key = .ok raws →
      ∃ st2 p, register_string_list_parameter st key dv = .ok st2 ∧
        alookup key st2.parameters = some p ∧
        p.default = .vlist (raws.map .vstr) ∧ p.touched = true) ∧
    (∀ dv : List String, alookup key st.query = some "()" →
      ∃ st2 p, register_string_list_parameter st key dv = .ok st2 ∧
        alookup key st2.parameters = some p ∧
        p.default = .vlist [] ∧ p.touched = true) ∧
    (∀ dv : List String, alookup key st.query = some "[]" →
      ∃ st2 p, register_string_list_parameter st key dv = .ok st2 ∧
        alookup key st2.parameters = some p ∧
        p.default = .vlist [] ∧ p.touched = true) ∧
    (∀ dv : List String, alookup key st.query = some "" →
      register_string_list_parameter st key dv = .error .indexError) := by
  refine ⟨?_, ?_, ?_, ?_⟩
  · intro dv raws hr
    exact ⟨_, _, reg_strlist_present st key dv raws hfresh hr,
      lookup_dictSet_self _ _ _, rfl, rfl⟩
  · intro dv hq
    have hr : _read_list_or_tuple st.query key = .ok [] :=
      (read_eq_of_lookup st.query key "()" hq).trans rfl
    exact ⟨_, _, reg_strlist_present st key dv [] hfresh hr,
      lookup_dictSet_self _ _ _, rfl, rfl⟩
  · intro dv hq
    have hr : _read_list_or_tuple st.query key = .ok [] :=
      (read_eq_of_lookup st.query key "[]" hq).trans rfl
    exact ⟨_, _, reg_strlist_present st key dv [] hfresh hr,
      lookup_dictSet_self _ _ _, rfl, rfl⟩
  · intro dv hq
    have hr : _read_list_or_tuple st.query key = .error .indexError :=
      (read_eq_of_lookup st.query key "" hq).trans rfl
    exact reg_strlist_readerr st key dv hfresh hr

/-- Witness for the amended C9: `()` registers the empty list, touched, and
the empty raw string fails with the index error. -/
theorem list_any_count_empty_brackets_ok_witness :
    (∃ st2 p, register_string_list_parameter wEmptyParens "k" ["d"] = .ok st2 ∧
      alookup "k" st2.parameters = some p ∧
      p.default = .vlist [] ∧ p.touched = true) ∧
    register_string_list_parameter wEmptyRaw "k" ["d"] = .error .indexError := by
  have h1 := (list_any_count_empty_brackets_ok wEmptyParens "k" rfl).2.1 ["d"] rfl
  have h2 := (list_any_count_empty_brackets_ok wEmptyRaw "k" rfl).2.2.2 ["d"] rfl
  exact ⟨h1, h2⟩

theorem cleanElement_not_keyError (cs : List Char) :
    cleanElement cs ≠ .error .keyError := by
  unfold cleanElement
  cases stripWS cs with
  | nil => simp
  | cons c rest =>
    cases h : (if c = squote then rest else c :: rest).getLast? <;> simp [h]

theorem cleanAll_not_keyError (gs : List (List Char)) :
    cleanAll gs ≠ .error .keyError := by
  induction gs with
  | nil => simp [cleanAll]
  | cons g rest ih =>
    unfold cleanAll
    cases hc : cleanElement g with
    | error e =>
      have hne := cleanElement_not_keyError g
      rw [hc] at hne
      simp only [hc, bind, Except.bind]
      intro hcon
      obtain rfl : e = PyErr.keyError := Except.error.inj hcon
      exact hne rfl
    | ok c =>
      cases hrest : cleanAll rest with
      | error e =>
        rw [hrest] at ih
        simp only [hc, hrest, bind, Except.bind]
        intro hcon
        obtain rfl : e = PyErr.keyError := Except.error.inj hcon
        exact ih rfl
      | ok cs2 => simp [hc, hrest, bind, Except.bind, pure, Except.pure]

theorem stripListBrackets_not_keyError (cs : List Char) :
    stripListBrackets cs ≠ .error .keyError := by
  unfold stripListBrackets
  cases cs with
  | nil => simp
  | cons c rest =>
    cases h : (if c = '(' ∨ c = '[' then rest else c :: rest).getLast? <;> simp [h]

/-- The list read signals `KeyError` only when the key has no query entry. -/
theorem read_keyError_imp_none (q : List (String × String)) (key : String)
    (h : _read_list_or_tuple q key = .error .keyError) : alookup key q = none := by
  cases hq : alookup key q with
  | none => rfl
  | some raw =>
    exfalso
    rw [read_eq_of_lookup q key raw hq] at h
    cases hs : stripListBrackets raw.data with
    | error e =>
      simp only [hs, bind, Except.bind] at h
      have hne := stripListBrackets_not_keyError raw.data
      rw [hs] at hne
      obtain rfl : e = PyErr.keyError := Except.error.inj h
      exact hne rfl
    | ok core =>
      simp only [hs, bind, Except.bind] at h
      by_cases hcore : core = []
      · simp [hcore, pure, Except.pure] at h
      · simp only [hcore, if_false, if_neg hcore] at h
        exact cleanAll_not_keyError (splitOnChar ',' core) h

theorem strtoboolAll_not_keyError (ss : List String) :
    strtoboolAll ss ≠ .error .keyError := by
  induction ss with
  | nil => simp [strtoboolAll]
  | cons s rest ih =>
    unfold strtoboolAll
    cases hc : strtobool s with
    | error e =>
      have hne : strtobool s ≠ .error .keyError := by
        by_cases h1 : (["y", "yes", "t", "true", "on", "1"].contains (pyLower s)) = true
        · simp only [strtobool, h1]
          exact fun hcon => Except.noConfusion hcon
        · simp only [Bool.not_eq_true] at h1
          by_cases h0 : (["n", "no", "f", "false", "off", "0"].contains (pyLower s)) = true
          · simp only [strtobool, h1, h0]
            exact fun hcon => Except.noConfusion hcon
          · simp only [Bool.not_eq_true] at h0
            simp only [strtobool, h1, h0]
            exact fun hcon => PyErr.noConfusion (Except.error.inj hcon)
      rw [hc] at hne
      simp only [hc, bind, Except.bind]
      intro hcon
      obtain rfl : e = PyErr.keyError := Except.error.inj hcon
      exact hne rfl
    | ok n =>
      cases hrest : strtoboolAll rest with
      | error e =>
        rw [hrest] at ih
        simp only [hc, hrest, bind, Except.bind]
        intro hcon
        obtain rfl : e = PyErr.keyError := Except.error.inj hcon
        exact ih rfl
      | ok ns => simp [hc, hrest, bind, Except.bind, pure, Except.pure]

/-- A failed list read propagates out of string-list registration for every
non-`KeyError` exception. -/
theorem reg_strlist_err_general (st : RegState) (key : String) (dv : List String)
    (e : PyErr) (he : e ≠ .keyError)
    (hfresh : _already_registered st key = false)
    (hr : _read_list_or_tuple st.query key = .error e) :
    register_string_list_parameter st key dv = .error e := by
  cases e with
  | keyError => exact absurd rfl he
  | indexError =>
    unfold register_string_list_parameter
    simp [hfresh, hr, bind, Except.bind, Except.map, throw, throwThe, MonadExceptOf.throw]
  | valueError =>
    unfold register_string_list_parameter
    simp [hfresh, hr, bind, Except.bind, Except.map, throw, throwThe, MonadExceptOf.throw]
  | assertError =>
    unfold register_string_list_parameter
    simp [hfresh, hr, bind, Except.bind, Except.map, throw, throwThe, MonadExceptOf.throw]

/-- A failed list read propagates out of boolean-list registration for every
non-`KeyError` exception. -/
theorem reg_boollist_readerr_general (st : RegState) (key : String) (dv : List Bool)
    (e : PyErr) (he : e ≠ .keyError)
    (hfresh : _already_registered st key = false)
    (hr : _read_list_or_tuple st.query key = .error e) :
    register_boolean_list_parameter st key dv = .error e := by
  cases e with
  | keyError => exact absurd rfl he
  | indexError =>
    unfold register_boolean_list_parameter
    simp [hfresh, hr, bind, Except.bind, Except.map, throw, throwThe, MonadExceptOf.throw]
  | valueError =>
    unfold register_boolean_list_parameter
    simp [hfresh, hr, bind, Except.bind, Except.map, throw, throwThe, MonadExceptOf.throw]
  | assertError =>
    unfold register_boolean_list_parameter
    simp [hfresh, hr, bind, Except.bind, Except.map, throw, throwThe, MonadExceptOf.throw]

/-- A failed `strtobool` conversion propagates out of boolean-list
registration for every non-`KeyError` exception. -/
theorem reg_boollist_badtoken_general (st : RegState) (key : String) (dv : List Bool)
    (values : List String) (e : PyErr) (he : e ≠ .keyError)
    (hfresh : _already_registered st key = false)
    (hr : _read_list_or_tuple st.query key = .ok values)
    (hs : strtoboolAll values = .error e) :
    register_boolean_list_parameter st key dv = .error e := by
  cases e with
  | keyError => exact absurd rfl he
  | indexError =>
    unfold register_boolean_list_parameter
    simp [hfresh, hr, hs, bind, Except.bind, Except.map, throw, throwThe, MonadExceptOf.throw]
  | valueError =>
    unfold register_boolean_list_parameter
    simp [hfresh, hr, hs, bind, Except.bind, Except.map, throw, throwThe, MonadExceptOf.throw]
  | assertError =>
    unfold register_boolean_list_parameter
    simp [hfresh, hr, hs, bind, Except.bind, Except.map, throw, throwThe, MonadExceptOf.throw]

/-- C10: string-list and boolean-list parameters are constructed with the
generic default `str` serializer (never the range serializer), so an exported
list parameter writes the generic textual list form — for example
`pyStr` renders the two-element string list with square brackets and quoted
elements, not the parenthesized comma-joined range form. -/
theorem list_parameters_use_generic_serializer (st : RegState) (key : String) :
    (_already_registered st key = false →
      ∀ (dv : List String) st2 p, register_string_list_parameter st key dv = .ok st2 →
      alookup key st2.parameters = some p → p.to_str = pyStr) ∧
    (_already_registered st key = false →
      ∀ (dv : List Bool) st2 p, register_boolean_list_parameter st key dv = .ok st2 →
      alookup key st2.parameters = some p → p.to_str = pyStr) ∧
    (∀ p, alookup key st.parameters = some p → p.to_str = pyStr →
      (st.set_all = true ∨ p.touched = true) →
      (st.parameters.map Prod.fst).Nodup →
      alookup key (set_url_fields st).query = some (pyStr p.value)) ∧
    pyStr (.vlist [.vstr "Hello", .vstr "world"])
      = "[" ++ quoteStr "Hello" ++ ", " ++ quoteStr "world" ++ "]" ∧
    _convert_list_or_tuple (.vlist [.vstr "Hello", .vstr "world"]) = "(Hello,world)" ∧
    pyStr (.vlist [.vstr "Hello", .vstr "world"])
      ≠ _convert_list_or_tuple (.vlist [.vstr "Hello", .vstr "world"]) := by
  refine ⟨?_, ?_, ?_, rfl, rfl, by decide⟩
  · intro hfresh dv st2 p hreg hlook
    cases hq : alookup key st.query with
    | none =>
      rw [reg_strlist_absent st key dv hfresh hq] at hreg
      obtain rfl : st2 = withParam st key
          (Parameter.init key (.vlist (dv.map .vstr)) false pyStr) :=
        (Except.ok.inj hreg).symm
      have hp : some p = some (Parameter.init key (.vlist (dv.map .vstr)) false pyStr) :=
        hlook.symm.trans (lookup_dictSet_self _ _ _)
      obtain rfl := Option.some.inj hp
      rfl
    | some raw =>
      cases hr2 : _read_list_or_tuple st.query key with
      | ok values =>
        rw [reg_strlist_present st key dv values hfresh hr2] at hreg
        obtain rfl : st2 = withParam st key
            (Parameter.init key (.vlist (values.map .vstr)) true pyStr) :=
          (Except.ok.inj hreg).symm
        have hp : some p = some (Parameter.init key (.vlist (values.map .vstr)) true pyStr) :=
          hlook.symm.trans (lookup_dictSet_self _ _ _)
        obtain rfl := Option.some.inj hp
        rfl
      | error e =>
        cases e with
        | keyError =>
          have := read_keyError_imp_none st.query key hr2
          rw [hq] at this
          exact Option.noConfusion this
        | indexError =>
          rw [reg_strlist_err_general st key dv _ (by simp) hfresh hr2] at hreg
          exact Except.noConfusion hreg
        | valueError =>
          rw [reg_strlist_err_general st key dv _ (by simp) hfresh hr2] at hreg
          exact Except.noConfusion hreg
        | assertError =>
          rw [reg_strlist_err_general st key dv _ (by simp) hfresh hr2] at hreg
          exact Except.noConfusion hreg
  · intro hfresh dv st2 p hreg hlook
    cases hq : alookup key st.query with
    | none =>
      rw [reg_boollist_absent st key dv hfresh hq] at hreg
      obtain rfl : st2 = withParam st key
          (Parameter.init key (.vlist (dv.map .vbool)) false pyStr) :=
        (Except.ok.inj hreg).symm
      have hp : some p = some (Parameter.init key (.vlist (dv.map .vbool)) false pyStr) :=
        hlook.symm.trans (lookup_dictSet_self _ _ _)
      obtain rfl := Option.some.inj hp
      rfl
    | some raw =>
      cases hr2 : _read_list_or_tuple st.query key with
      | ok values =>
        cases hs : strtoboolAll values with
        | ok ns =>
          rw [reg_boollist_present st key dv values ns hfresh hr2 hs] at hreg
          obtain rfl : st2 = withParam st key
              (Parameter.init key (.vlist (ns.map (fun n => .vint n))) true pyStr) :=
            (Except.ok.inj hreg).symm
          have hp : some p
              = some (Parameter.init key (.vlist (ns.map (fun n => .vint n))) true pyStr) :=
            hlook.symm.trans (lookup_dictSet_self _ _ _)
          obtain rfl := Option.some.inj hp
          rfl
        | error e =>
          cases e with
          | keyError =>
            have := strtoboolAll_not_keyError values
            rw [hs] at this
            exact absurd rfl this
          | indexError =>
            rw [reg_boollist_badtoken_general st key dv values _ (by simp) hfresh hr2 hs]
              at hreg
            exact Except.noConfusion hreg
          | valueError =>
            rw [reg_boollist_badtoken_general st key dv values _ (by simp) hfresh hr2 hs]
              at hreg
            exact Except.noConfusion hreg
          | assertError =>
            rw [reg_boollist_badtoken_general st key dv values _ (by simp) hfresh hr2 hs]
              at hreg
            exact Except.noConfusion hreg
      | error e =>
        cases e with
        | keyError =>
          have := read_keyError_imp_none st.query key hr2
          rw [hq] at this
          exact Option.noConfusion this
        | indexError =>
          rw [reg_boollist_readerr_general st key dv _ (by simp) hfresh hr2] at hreg
          exact Except.noConfusion hreg
        | valueError =>
          rw [reg_boollist_readerr_general st key dv _ (by simp) hfresh hr2] at hreg
          exact Except.noConfusion hreg
        | assertError =>
          rw [reg_boollist_readerr_general st key dv _ (by simp) hfresh hr2] at hreg
          exact Except.noConfusion hreg
  · intro p hp hser hor hnd
    have hq := set_url_fields_lookup st key hnd
    have hf : (st.set_all || p.touched) = true := by simpa using hor
    have hred : alookup key (set_url_fields st).query
        = if (st.set_all || p.touched) = true then some (p.to_str p.value) else none := by
      rw [hq, hp]
    rw [hred, if_pos hf, hser]

/-- Witness for C10: registering a string list from the query `(a,b)` yields
the generic serializer, and exporting the touched list writes the generic
bracketed-and-quoted form. -/
theorem list_parameters_use_generic_serializer_witness :
    (∃ st2 p, register_string_list_parameter wEmptyParens "k" ["d"] = .ok st2 ∧
      alookup "k" st2.parameters = some p ∧ p.to_str = pyStr) ∧
    alookup "words" (set_url_fields wListExport).query
      = some ("[" ++ quoteStr "Hello" ++ ", " ++ quoteStr "world" ++ "]") := by
  have h1 := (list_parameters_use_generic_serializer wEmptyParens "k").1 rfl ["d"]
  have h2 := (list_parameters_use_generic_serializer wListExport "words").2.2.1
    (Parameter.init "words" (.vlist [.vstr "Hello", .vstr "world"]) true pyStr)
    rfl rfl (Or.inr rfl) (by decide)
  refine ⟨?_, ?_⟩
  · obtain ⟨st2, hreg⟩ :
        ∃ st2, register_string_list_parameter wEmptyParens "k" ["d"] = .ok st2 :=
      ⟨_, reg_strlist_present wEmptyParens "k" ["d"] [] rfl rfl⟩
    obtain ⟨p, hlook⟩ : ∃ p, alookup "k" st2.parameters = some p := by
      rw [reg_strlist_present wEmptyParens "k" ["d"] [] rfl rfl] at hreg
      obtain rfl := (Except.ok.inj hreg).symm
      exact ⟨_, lookup_dictSet_self _ _ _⟩
    exact ⟨st2, p, hreg, hlook, h1 st2 p hreg hlook⟩
  · rw [h2]
    rfl

/-! ### Helper lemmas: serialization round trip -/

theorem stripListBrackets_paren (cs : List Char) :
    stripListBrackets ('(' :: cs ++ [')']) = .ok cs := by
  unfold stripListBrackets
  simp [List.getLast?_concat, List.dropLast_concat]

theorem stripListBrackets_square (cs : List Char) :
    stripListBrackets ('[' :: cs ++ [']']) = .ok cs := by
  unfold stripListBrackets
  simp [List.getLast?_concat, List.dropLast_concat]

theorem stripWS_quoted (mid : List Char) :
    stripWS (squote :: mid ++ [squote]) = squote :: mid ++ [squote] := by
  unfold stripWS
  rw [show List.dropWhile pyIsSpace (squote :: mid ++ [squote])
        = squote :: mid ++ [squote] from rfl,
    show (squote :: mid ++ [squote]).reverse = squote :: (mid.reverse ++ [squote]) from by simp,
    show List.dropWhile pyIsSpace (squote :: (mid.reverse ++ [squote]))
        = squote :: (mid.reverse ++ [squote]) from rfl]
  simp

theorem stripWS_space_quoted (mid : List Char) :
    stripWS (' ' :: squote :: mid ++ [squote]) = squote :: mid ++ [squote] := by
  unfold stripWS
  rw [show List.dropWhile pyIsSpace (' ' :: squote :: mid ++ [squote])
        = squote :: mid ++ [squote] from rfl,
    show (squote :: mid ++ [squote]).reverse = squote :: (mid.reverse ++ [squote]) from by simp,
    show List.dropWhile pyIsSpace (squote :: (mid.reverse ++ [squote]))
        = squote :: (mid.reverse ++ [squote]) from rfl]
  simp

theorem cleanElement_quoted (s : String) :
    cleanElement (squote :: s.data ++ [squote]) = .ok s := by
  unfold cleanElement
  rw [stripWS_quoted s.data]
  simp [List.getLast?_concat, List.dropLast_concat]

theorem cleanElement_space_quoted (s : String) :
    cleanElement (' ' :: squote :: s.data ++ [squote]) = .ok s := by
  unfold cleanElement
  rw [stripWS_space_quoted s.data]
  simp [List.getLast?_concat, List.dropLast_concat]

theorem cleanAll_pair (g1 g2 : List Char) (s1 s2 : String)
    (h1 : cleanElement g1 = .ok s1) (h2 : cleanElement g2 = .ok s2) :
    cleanAll [g1, g2] = .ok [s1, s2] := by
  simp [cleanAll, h1, h2, bind, Except.bind, pure, Except.pure]

theorem convertAll_pair (convert : String → Except PyErr Value) (s1 s2 : String)
    (v1 v2 : Value) (h1 : convert s1 = .ok v1) (h2 : convert s2 = .ok v2) :
    convertAll convert [s1, s2] = .ok [v1, v2] := by
  simp [convertAll, h1, h2, bind, Except.bind, pure, Except.pure]

/-- Reading back a serialized pair `(sa,sb)` whose sides are non-empty and
free of whitespace, commas and quotes recovers the two sides verbatim. -/
theorem read_serialized_pair (q : List (String × String)) (key : String) (sa sb : String)
    (hq : alookup key q = some ("(" ++ sa ++ "," ++ sb ++ ")"))
    (hane : sa.data ≠ []) (hbne : sb.data ≠ [])
    (ha : ∀ c ∈ sa.data, pyIsSpace c = false ∧ c ≠ ',' ∧ c ≠ squote)
    (hb : ∀ c ∈ sb.data, pyIsSpace c = false ∧ c ≠ ',' ∧ c ≠ squote) :
    _read_list_or_tuple q key = .ok [sa, sb] := by
  rw [read_eq_of_lookup q key _ hq]
  have hdata : ("(" ++ sa ++ "," ++ sb ++ ")").data
      = '(' :: (sa.data ++ ',' :: sb.data) ++ [')'] := by
    show ['('] ++ sa.data ++ [','] ++ sb.data ++ [')']
      = '(' :: (sa.data ++ ',' :: sb.data) ++ [')']
    simp
  rw [hdata, stripListBrackets_paren]
  have hcore : sa.data ++ ',' :: sb.data ≠ [] := by
    cases h : sa.data with
    | nil => exact absurd h hane
    | cons c rest => simp [h]
  have hsplit : splitOnChar ',' (sa.data ++ ',' :: sb.data) = [sa.data, sb.data] := by
    rw [splitOnChar_append sb.data (fun hmem => ((ha _ hmem).2.1 rfl)),
      splitOnChar_not_mem (fun hmem => ((hb _ hmem).2.1 rfl))]
  have hclean : cleanAll [sa.data, sb.data] = .ok [sa, sb] := by
    have c1 : cleanElement sa.data = .ok (String.mk sa.data) :=
      cleanElement_plain hane (fun c hc => (ha c hc).1) (fun c hc => (ha c hc).2.2)
    have c2 : cleanElement sb.data = .ok (String.mk sb.data) :=
      cleanElement_plain hbne (fun c hc => (hb c hc).1) (fun c hc => (hb c hc).2.2)
    exact cleanAll_pair _ _ _ _ c1 c2
  simp [bind, Except.bind, hcore, hsplit, hclean]

theorem cleanAll_cons (g : List Char) (gs : List (List Char)) (s : String) (ss : List String)
    (h1 : cleanElement g = .ok s) (h2 : cleanAll gs = .ok ss) :
    cleanAll (g :: gs) = .ok (s :: ss) := by
  simp [cleanAll, h1, h2, bind, Except.bind, pure, Except.pure]

theorem cleanAll_single (g : List Char) (s : String) (h1 : cleanElement g = .ok s) :
    cleanAll [g] = .ok [s] := by
  simp [cleanAll, h1, bind, Except.bind, pure, Except.pure]

/-- Splitting and cleaning the comma-space join of quoted plain strings
recovers the strings, with or without a leading space on the first
element. -/
theorem split_clean_reprs (ss : List String)
    (hp : ∀ s ∈ ss, ∀ c ∈ s.data, c ≠ ',' ∧ c ≠ squote) (hne : ss ≠ []) :
    cleanAll (splitOnChar ',' (pyReprList (ss.map .vstr)).data) = .ok ss ∧
    cleanAll (splitOnChar ',' (' ' :: (pyReprList (ss.map .vstr)).data)) = .ok ss := by
  induction ss with
  | nil => exact absurd rfl hne
  | cons s tail ih =>
    have hsq : ¬(',' : Char) = squote := by decide
    have hnc : (',' : Char) ∉ squote :: s.data ++ [squote] := by
      intro hmem
      rcases List.mem_cons.mp hmem with h1 | h2
      · exact hsq h1
      · rcases List.mem_append.mp h2 with h3 | h4
        · exact (hp s (List.mem_cons_self s tail) ',' h3).1 rfl
        · exact hsq (List.mem_singleton.mp h4)
    cases tail with
    | nil =>
      have hdata : (pyReprList ([s].map .vstr)).data = squote :: s.data ++ [squote] := rfl
      rw [hdata]
      constructor
      · rw [splitOnChar_not_mem hnc]
        exact cleanAll_single _ _ (cleanElement_quoted s)
      · have hnc2 : (',' : Char) ∉ ' ' :: (squote :: s.data ++ [squote]) := by
          intro hmem
          rcases List.mem_cons.mp hmem with h1 | h2
          · exact absurd h1 (by decide)
          · exact hnc h2
        rw [splitOnChar_not_mem hnc2]
        exact cleanAll_single _ _ (cleanElement_space_quoted s)
    | cons s2 rest =>
      have hptail : ∀ x ∈ s2 :: rest, ∀ c ∈ x.data, c ≠ ',' ∧ c ≠ squote :=
        fun x hx => hp x (List.mem_cons_of_mem s hx)
      obtain ⟨-, ihsp⟩ := ih hptail (by simp)
      have hdata : (pyReprList ((s :: s2 :: rest).map .vstr)).data
          = (squote :: s.data ++ [squote])
            ++ ',' :: ' ' :: (pyReprList ((s2 :: rest).map .vstr)).data := by
        show ((pyRepr (.vstr s) ++ ", ") ++ pyReprList ((s2 :: rest).map .vstr)).data = _
        simp [pyRepr]
      rw [hdata]
      constructor
      · rw [splitOnChar_append _ hnc]
        exact cleanAll_cons _ _ _ _ (cleanElement_quoted s) ihsp
      · have hnc2 : (',' : Char) ∉ ' ' :: squote :: s.data ++ [squote] := by
          intro hmem
          rcases List.mem_cons.mp hmem with h1 | h2
          · exact absurd h1 (by decide)
          · exact hnc h2
        rw [show (' ' :: ((squote :: s.data ++ [squote])
              ++ ',' :: ' ' :: (pyReprList ((s2 :: rest).map .vstr)).data))
            = (' ' :: squote :: s.data ++ [squote])
              ++ ',' :: ' ' :: (pyReprList ((s2 :: rest).map .vstr)).data from by simp]
        rw [splitOnChar_append _ hnc2]
        exact cleanAll_cons _ _ _ _ (cleanElement_space_quoted s) ihsp

/-- Reading back the generic `str` form of a plain string list recovers the
list, for any length (zero included). -/
theorem read_pyStr_strlist (q : List (String × String)) (key : String) (ss : List String)
    (hq : alookup key q = some (pyStr (.vlist (ss.map .vstr))))
    (hp : ∀ s ∈ ss, ∀ c ∈ s.data, c ≠ ',' ∧ c ≠ squote) :
    _read_list_or_tuple q key = .ok ss := by
  rw [read_eq_of_lookup q key _ hq]
  cases ss with
  | nil => rfl
  | cons s tail =>
    have hdata : (pyStr (.vlist ((s :: tail).map .vstr))).data
        = '[' :: (pyReprList ((s :: tail).map .vstr)).data ++ [']'] := by
      show ("[" ++ pyReprList ((s :: tail).map .vstr) ++ "]").data = _
      simp
    have hne : (pyReprList ((s :: tail).map .vstr)).data ≠ [] := by
      cases tail with
      | nil => simp [pyReprList, pyRepr]
      | cons s2 rest =>
        show ((pyRepr (.vstr s) ++ ", ") ++ pyReprList ((s2 :: rest).map .vstr)).data ≠ []
        simp [pyRepr]
    rw [hdata]
    simp only [stripListBrackets_square, bind, Except.bind, hne, if_neg hne]
    exact (split_clean_reprs (s :: tail) hp (by simp)).1

/-- C4: parsing the serialized form returns the value.  For every integer
range, the serialized `(a,b)` form — produced by `_convert_list_or_tuple`
with no internal whitespace — reads and converts back to exactly `(a, b)`;
for every list of plain strings (no commas or quotes), the serialized
generic list form reads back to the same list; and concretely the integer
range `(10, 20)` serializes to the string `(10,20)`, which parses back to
`(10, 20)`. -/
theorem range_list_roundtrip (st : RegState) (key : String) :
    (∀ (dv : Int × Int) (a b : Int), _already_registered st key = false →
      alookup key st.query = some (_convert_list_or_tuple (.vpair (.vint a) (.vint b))) →
      register_int_range_parameter st key dv =
        .ok (withParam st key
          (Parameter.init key (.vpair (.vint a) (.vint b)) true _convert_list_or_tuple))) ∧
    (∀ (dv ss : List String), _already_registered st key = false →
      (∀ s ∈ ss, ∀ c ∈ s.data, c ≠ ',' ∧ c ≠ squote) →
      alookup key st.query = some (pyStr (.vlist (ss.map .vstr))) →
      register_string_list_parameter st key dv =
        .ok (withParam st key (Parameter.init key (.vlist (ss.map .vstr)) true pyStr))) ∧
    _convert_list_or_tuple (.vpair (.vint 10) (.vint 20)) = "(10,20)" ∧
    _read_list_or_tuple [("k", "(10,20)")] "k" = .ok ["10", "20"] ∧
    pyIntParse "10" = some 10 ∧ pyIntParse "20" = some 20 := by
  refine ⟨?_, ?_, rfl, rfl, rfl, rfl⟩
  · intro dv a b hfresh hq
    have hser : _convert_list_or_tuple (.vpair (.vint a) (.vint b))
        = "(" ++ intToStr a ++ "," ++ intToStr b ++ ")" := rfl
    rw [hser] at hq
    have ha := intToStr_plain a
    have hb := intToStr_plain b
    have hr := read_serialized_pair st.query key (intToStr a) (intToStr b) hq
      ha.1 hb.1 ha.2 hb.2
    have hc : convertAll (convertWith (fun s => (pyIntParse s).map Value.vint))
        [intToStr a, intToStr b] = .ok [.vint a, .vint b] :=
      convertAll_pair _ _ _ _ _ (by simp [convertWith, pyIntParse_intToStr])
        (by simp [convertWith, pyIntParse_intToStr])
    exact reg_range_present st key (.vint dv.1, .vint dv.2) _ _ _ _ hfresh hr hc
  · intro dv ss hfresh hp hq
    exact reg_strlist_present st key dv ss hfresh (read_pyStr_strlist st.query key ss hq hp)

/-- Witness for C4 at the concrete values: the range `(10, 20)` and the list
of "Hello" and "world" round trip through registration. -/
theorem range_list_roundtrip_witness :
    register_int_range_parameter wRoundtrip "r" (0, 0) =
      .ok (withParam wRoundtrip "r"
        (Parameter.init "r" (.vpair (.vint 10) (.vint 20)) true _convert_list_or_tuple)) ∧
    register_string_list_parameter wRoundtrip "l" [] =
      .ok (withParam wRoundtrip "l"
        (Parameter.init "l" (.vlist [.vstr "Hello", .vstr "world"]) true pyStr)) := by
  have h1 := (range_list_roundtrip wRoundtrip "r").1 (0, 0) 10 20 rfl rfl
  have h2 := (range_list_roundtrip wRoundtrip "l").2.1 [] ["Hello", "world"] rfl
    (by decide) rfl
  exact ⟨h1, h2⟩
